import Mathlib

/-!
Shallow embedding of the requirements-to-scenarios analysis pipeline
(`PRDParser`, `FeatureExtractor`, `ScenarioGenerator`, `RequirementsAnalyzer`)
together with proofs about it.

Modelling conventions:
* JavaScript strings are Lean `String`s, manipulated through their character
  lists; all string helpers are restricted to ASCII, which is the alphabet the
  source's patterns and literals use.
* JavaScript numbers used as counters are `Nat`; the validation score, which
  is decremented, is `Int`.  Scenario confidence values (0.6 … 0.9, always a
  multiple of 0.1) are stored as tenths in a `Nat`.
* TypeScript optional fields and possibly-`undefined` values are `Option`.
* A thrown JavaScript exception is `Except JsErr`; code that cannot throw is
  modelled by a total function.
* Regular-expression literals are embedded as `RE` syntax trees executed by a
  standard leftmost backtracking matcher (`reMatch`) that returns the
  prioritised list of outcomes in backtracking order.  `reMatch` carries fuel;
  for the patterns appearing here every starred subpattern consumes at least
  one character, so the recursion depth is below `(reSize r + 2) * (|s| + 2)`
  and the fuel is never exhausted.
-/

/-- The JS `\s` class (and the set trimmed by `String.prototype.trim`),
restricted to ASCII whitespace. -/
def jsIsSpace (c : Char) : Bool :=
  c == ' ' || c == '\t' || c == '\n' || c == '\r' || c == '\x0b' || c == '\x0c'

/-- The JS `\d` class. -/
def jsIsDigit (c : Char) : Bool := '0' ≤ c && c ≤ '9'

/-- The JS `\w` class: `[A-Za-z0-9_]`. -/
def jsIsWordChar (c : Char) : Bool :=
  ('a' ≤ c && c ≤ 'z') || ('A' ≤ c && c ≤ 'Z') || jsIsDigit c || c == '_'

/-- `[a-zA-Z0-9]`, used by the name-sanitising replacements. -/
def jsIsAlnum (c : Char) : Bool :=
  ('a' ≤ c && c ≤ 'z') || ('A' ≤ c && c ≤ 'Z') || jsIsDigit c

/-- ASCII `toLowerCase` on one character. -/
def jsToLowerChar (c : Char) : Char :=
  if 'A' ≤ c && c ≤ 'Z' then Char.ofNat (c.toNat + 32) else c

/-- ASCII `toUpperCase` on one character. -/
def jsToUpperChar (c : Char) : Char :=
  if 'a' ≤ c && c ≤ 'z' then Char.ofNat (c.toNat - 32) else c

/-- Strip leading and trailing JS whitespace from a character list. -/
def trimChars (l : List Char) : List Char :=
  ((l.dropWhile jsIsSpace).reverse.dropWhile jsIsSpace).reverse

/-- JS `String.prototype.trim`. -/
def jsTrim (s : String) : String := ⟨trimChars s.data⟩

/-- JS `String.prototype.toLowerCase` (ASCII fragment). -/
def jsToLower (s : String) : String := ⟨s.data.map jsToLowerChar⟩

/-- JS `String.prototype.toUpperCase` (ASCII fragment). -/
def jsToUpper (s : String) : String := ⟨s.data.map jsToUpperChar⟩

/-- Does `l` start with `pre`? -/
def listStartsWith : List Char → List Char → Bool
  | _, [] => true
  | [], _ :: _ => false
  | c :: cs, p :: ps => c == p && listStartsWith cs ps

/-- JS `String.prototype.startsWith`. -/
def jsStartsWith (s pre : String) : Bool := listStartsWith s.data pre.data

/-- Does `nd` occur as a contiguous subsequence of the second list? -/
def listContainsSub (nd : List Char) : List Char → Bool
  | [] => listStartsWith [] nd
  | c :: t => listStartsWith (c :: t) nd || listContainsSub nd t

/-- JS `String.prototype.includes`. -/
def jsIncludes (s sub : String) : Bool := listContainsSub sub.data s.data

/-- Split a character list at every occurrence of `sep`, keeping empty pieces
(the behaviour of JS `String.prototype.split` with a one-character
separator). -/
def splitOnChar (sep : Char) : List Char → List (List Char)
  | [] => [[]]
  | c :: rest =>
    match splitOnChar sep rest with
    | [] => if c == sep then [[], []] else [[c]]
    | g :: gs => if c == sep then [] :: g :: gs else (c :: g) :: gs

/-- JS `content.split('\n')`. -/
def jsSplitLines (s : String) : List String := (splitOnChar '\n' s.data).map String.mk

/-- JS `Array.prototype.join` with a separator. -/
def joinSep (sep : String) : List String → String
  | [] => ""
  | [x] => x
  | x :: y :: rest => x ++ sep ++ joinSep sep (y :: rest)

/-- Worker for `decimalChars`: the decimal digits of `n`, most significant
first, for `n ≠ 0`; the fuel only bounds the recursion depth and `n ≤ fuel`
keeps it from running out (each step divides `n` by ten). -/
def decimalCharsCore : Nat → Nat → List Char
  | 0, _ => []
  | fuel + 1, n =>
    if n = 0 then [] else decimalCharsCore fuel (n / 10) ++ [Nat.digitChar (n % 10)]

/-- The decimal digits of `n`, most significant first; the character-list
value of JS `String(n)` for a natural number. -/
def decimalChars (n : Nat) : List Char :=
  if n = 0 then ['0'] else decimalCharsCore (n + 1) n

/-- JS `String(n)` for a natural number. -/
def jsString (n : Nat) : String := ⟨decimalChars n⟩

/-- JS `String.prototype.padStart(3, '0')` on a character list. -/
def padStart3 (l : List Char) : List Char := List.replicate (3 - l.length) '0' ++ l

/-- JS `v || d` for an optional string value (`undefined` and `''` are
falsy). -/
def jsOrStr (v : Option String) (d : String) : String :=
  match v with
  | some s => if s = "" then d else s
  | none => d

/-- JS truthiness of an optional string (`undefined` and `''` are falsy). -/
def jsTruthy (v : Option String) : Bool :=
  match v with
  | some s => s ≠ ""
  | none => false

/-- `acc[k] = (acc[k] || 0) + 1` over a JS object used as a counter table,
modelled as an insertion-ordered association list. -/
def recInc (m : List (String × Nat)) (k : String) : List (String × Nat) :=
  if m.any (fun p => p.1 == k) then
    m.map (fun p => if p.1 == k then (p.1, p.2 + 1) else p)
  else m ++ [(k, 1)]

-- ===== Regular-expression engine =====

/-- Syntax of the regex fragment used by the source's literals. -/
inductive RE where
  /-- empty pattern -/
  | eps : RE
  /-- `.` — any character except a newline -/
  | anyc : RE
  /-- literal character, exact -/
  | ch : Char → RE
  /-- literal character under the `i` flag; the stored char is lower-case -/
  | chi : Char → RE
  /-- character class -/
  | cls : (Char → Bool) → RE
  /-- concatenation -/
  | seq : RE → RE → RE
  /-- ordered alternation -/
  | alt : RE → RE → RE
  /-- Kleene star; `true` = greedy, `false` = lazy -/
  | star : Bool → RE → RE
  /-- numbered capture group -/
  | grp : Nat → RE → RE
  /-- `$` under the `m` flag: end of input or just before a newline -/
  | eolm : RE

/-- Captured groups: group number ↦ captured characters. -/
def Groups := List (Nat × List Char)

/-- Equality of capture tables is decidable. -/
instance : DecidableEq Groups := inferInstanceAs (DecidableEq (List (Nat × List Char)))

/-- Record a capture, overwriting an earlier capture of the same group. -/
def setGrp (g : Groups) (i : Nat) (v : List Char) : Groups :=
  (i, v) :: (List.filter (fun p => p.1 != i) g)

/-- Look up a capture. -/
def getGrp (g : Groups) (i : Nat) : Option (List Char) :=
  (List.find? (fun p => p.1 == i) g).map (·.2)

/-- Structural size of a pattern, used to compute a fuel bound. -/
def reSize : RE → Nat
  | .seq a b => reSize a + reSize b + 1
  | .alt a b => reSize a + reSize b + 1
  | .star _ a => reSize a + 1
  | .grp _ a => reSize a + 1
  | _ => 1

/-- Backtracking matcher.  `reMatch fuel r s g` returns every way `r` can
match a prefix of `s`, as `(rest-of-input, groups)` pairs, in the engine's
backtracking priority order (so the head is the match JS would commit to).
A star iteration that consumes nothing is not continued, which agrees with
the JS engine's empty-iteration cutoff. -/
def reMatch : Nat → RE → List Char → Groups → List (List Char × Groups)
  | 0, _, _, _ => []
  | _ + 1, .eps, s, g => [(s, g)]
  | _ + 1, .anyc, s, g =>
    match s with
    | [] => []
    | c :: rest => if c == '\n' then [] else [(rest, g)]
  | _ + 1, .ch a, s, g =>
    match s with
    | [] => []
    | c :: rest => if c == a then [(rest, g)] else []
  | _ + 1, .chi a, s, g =>
    match s with
    | [] => []
    | c :: rest => if jsToLowerChar c == a then [(rest, g)] else []
  | _ + 1, .cls p, s, g =>
    match s with
    | [] => []
    | c :: rest => if p c then [(rest, g)] else []
  | f + 1, .seq a b, s, g =>
    (reMatch f a s g).flatMap (fun r => reMatch f b r.1 r.2)
  | f + 1, .alt a b, s, g => reMatch f a s g ++ reMatch f b s g
  | f + 1, .star gr a, s, g =>
    let conts := ((reMatch f a s g).filter (fun r => r.1.length < s.length)).flatMap
      (fun r => reMatch f (.star gr a) r.1 r.2)
    if gr then conts ++ [(s, g)] else (s, g) :: conts
  | f + 1, .grp i a, s, g =>
    (reMatch f a s g).map
      (fun r => (r.1, setGrp r.2 i (s.take (s.length - r.1.length))))
  | _ + 1, .eolm, s, g =>
    match s with
    | [] => [(s, g)]
    | c :: _ => if c == '\n' then [(s, g)] else []

/-- Fuel that the patterns in this file never exhaust (see the header note). -/
def reFuel (r : RE) (s : List Char) : Nat := (reSize r + 2) * (s.length + 2)

/-- Match `r` anchored at the start of `s`; the committed JS match, if any. -/
def reMatchAt (r : RE) (s : List Char) : Option (List Char × Groups) :=
  (reMatch (reFuel r s) r s []).head?

/-- Unanchored search, leftmost match first: returns
`(suffix where the match starts, rest after the match, groups)`. -/
def reSearch (r : RE) : List Char → Option (List Char × List Char × Groups)
  | [] =>
    match reMatchAt r [] with
    | some (rest, g) => some ([], rest, g)
    | none => none
  | c :: t =>
    match reMatchAt r (c :: t) with
    | some (rest, g) => some (c :: t, rest, g)
    | none => reSearch r t

/-- All successive non-overlapping matches (the `g`-flag `exec` loop);
`fuel` is consumed once per match found. -/
def reExecAll : Nat → RE → List Char → List (List Char × List Char × Groups)
  | 0, _, _ => []
  | f + 1, r, s =>
    match reSearch r s with
    | none => []
    | some (st, rest, g) =>
      if st.length - rest.length = 0 then []
      else (st, rest, g) :: reExecAll f r rest

/-- Run the `g`-flag `exec` loop over `s`. -/
def jsExecAll (r : RE) (s : List Char) : List (List Char × List Char × Groups) :=
  reExecAll (s.length + 1) r s

/-- The characters a match starting at suffix `st` and ending at suffix
`rest` consumed (JS `match[0]`). -/
def matchedText (st rest : List Char) : List Char := st.take (st.length - rest.length)

/-- Build a pattern from a string, one constructor per character. -/
def reOfList (f : Char → RE) : List Char → RE
  | [] => .eps
  | [c] => f c
  | c :: d :: rest => .seq (f c) (reOfList f (d :: rest))

/-- Case-sensitive literal. -/
def reLit (s : String) : RE := reOfList RE.ch s.data

/-- Case-insensitive literal (`i` flag). -/
def reLiti (s : String) : RE := reOfList (fun c => RE.chi (jsToLowerChar c)) s.data

/-- Concatenation of a list of patterns. -/
def reSeqL (l : List RE) : RE := l.foldr RE.seq .eps

/-- `\s` -/
def reWs : RE := .cls jsIsSpace

/-- `x+` -/
def rePlus (gr : Bool) (a : RE) : RE := .seq a (.star gr a)

/-- `x?` -/
def reOpt (gr : Bool) (a : RE) : RE := if gr then .alt a .eps else .alt .eps a

-- ===== The source's regex literals =====

/-- `/^#\s+(.+)/` (PRDParser.extractMetadata, title). -/
def titleRe : RE :=
  reSeqL [.ch '#', rePlus true reWs, .grp 1 (rePlus true .anyc)]

/-- `/version\s*:?\s*(.+)/i` (PRDParser.extractMetadata). -/
def versionRe : RE :=
  reSeqL [reLiti "version", .star true reWs, reOpt true (.ch ':'), .star true reWs,
    .grp 1 (rePlus true .anyc)]

/-- `/author\s*:?\s*(.+)/i` (PRDParser.extractMetadata). -/
def authorRe : RE :=
  reSeqL [reLiti "author", .star true reWs, reOpt true (.ch ':'), .star true reWs,
    .grp 1 (rePlus true .anyc)]

/-- `/As an?\s+(.+?)\s*,\s*I want to\s+(.+?)(?:\s*,\s*so that\s+(.+?))?\.?$/gmi`
(PRDParser.extractUserStories). -/
def userStoryRe : RE :=
  reSeqL [reLiti "As a", reOpt true (.chi 'n'), rePlus true reWs,
    .grp 1 (rePlus false .anyc), .star true reWs, .ch ',', .star true reWs,
    reLiti "I want to", rePlus true reWs, .grp 2 (rePlus false .anyc),
    reOpt true (reSeqL [.star true reWs, .ch ',', .star true reWs, reLiti "so that",
      rePlus true reWs, .grp 3 (rePlus false .anyc)]),
    reOpt true (.ch '.'), .eolm]

/-- `/^###?\s*Feature[:\s]/i` (PRDParser.extractFeatures heading test). -/
def featureHeadRe : RE :=
  reSeqL [.ch '#', .ch '#', reOpt true (.ch '#'), .star true reWs, reLiti "Feature",
    .cls (fun c => c == ':' || jsIsSpace c)]

/-- `/^###?\s*Feature[:\s]\s*/i` (PRDParser.extractFeatures title strip). -/
def featureTitleStripRe : RE :=
  reSeqL [.ch '#', .ch '#', reOpt true (.ch '#'), .star true reWs, reLiti "Feature",
    .cls (fun c => c == ':' || jsIsSpace c), .star true reWs]

/-- `/^-\s+/` (PRDParser.extractFeatures bullet test). -/
def bulletRe : RE := reSeqL [.ch '-', rePlus true reWs]

/-- `/^\d+\.\s+/` (PRDParser.extractFeatures numbered-item test). -/
def numberedRe : RE := reSeqL [rePlus true (.cls jsIsDigit), .ch '.', rePlus true reWs]

/-- `/^[-\d.]+\s+/` (PRDParser.extractFeatures criterion strip). -/
def criterionStripRe : RE :=
  reSeqL [rePlus true (.cls (fun c => c == '-' || jsIsDigit c || c == '.')),
    rePlus true reWs]

/-- `/^-\s+(.+?)\s*[:=]\s*(.+)/` (PRDParser.extractRequirements). -/
def bareReqRe : RE :=
  reSeqL [.ch '-', rePlus true reWs, .grp 1 (rePlus false .anyc), .star true reWs,
    .cls (fun c => c == ':' || c == '='), .star true reWs, .grp 2 (rePlus true .anyc)]

/-- `/\[(high|medium|low)\]/i` (PRDParser.extractRequirements priority). -/
def priorityRe : RE :=
  reSeqL [.ch '[',
    .grp 1 (.alt (reLiti "high") (.alt (reLiti "medium") (reLiti "low"))), .ch ']']

/-- `/(?:when|then|and|given)\s+/gi` (FeatureExtractor.parseCriteriaIntoSteps). -/
def criteriaSplitRe : RE :=
  reSeqL [.alt (reLiti "when") (.alt (reLiti "then") (.alt (reLiti "and") (reLiti "given"))),
    rePlus true reWs]

/-- `/[.!?]/` (FeatureExtractor.parseCriteriaIntoSteps fallback split). -/
def punctSplitRe : RE := .cls (fun c => c == '.' || c == '!' || c == '?')

-- ===== JS regex API on top of the engine =====

/-- `regex.test(line)` / `line.match(regex) !== null` for a `^`-anchored
pattern (the anchor restricts matching to position 0). -/
def reTestAt (r : RE) (s : String) : Bool := (reMatchAt r s.data).isSome

/-- `line.match(regex) !== null` for an unanchored pattern. -/
def reTestSearch (r : RE) (s : String) : Bool := (reSearch r s.data).isSome

/-- Group `i` of an anchored match, as JS `match[i]` (`none` = `undefined`). -/
def matchGrpAt (r : RE) (s : String) (i : Nat) : Option String :=
  (reMatchAt r s.data).bind (fun m => (getGrp m.2 i).map String.mk)

/-- Group `i` of an unanchored search match. -/
def matchGrpSearch (r : RE) (s : String) (i : Nat) : Option String :=
  (reSearch r s.data).bind (fun m => (getGrp m.2.2 i).map String.mk)

/-- `s.replace(anchoredPattern, '')` — strip the match at position 0, if any. -/
def jsReplaceAnchored (r : RE) (s : String) : String :=
  match reMatchAt r s.data with
  | some (rest, _) => ⟨rest⟩
  | none => s

/-- Cut a string into the pieces around a list of successive matches. -/
def splitPieces : List Char → List (List Char × List Char × Groups) → List (List Char)
  | s, [] => [s]
  | s, (st, rest, _) :: ms => (s.take (s.length - st.length)) :: splitPieces rest ms

/-- `s.split(regex)` for a global regex with no capture groups. -/
def jsSplitRe (r : RE) (s : String) : List String :=
  (splitPieces s.data (jsExecAll r s.data)).map String.mk

/-- A global character-class replacement such as `.replace(/[^\w\s]/g, ' ')`. -/
def jsReplaceClassWith (p : Char → Bool) (rep : Char) (s : String) : String :=
  ⟨s.data.map (fun c => if p c then rep else c)⟩

/-- A global character-class deletion such as `.replace(/[^a-zA-Z0-9\s-]/g, '')`. -/
def jsDeleteClass (p : Char → Bool) (s : String) : String :=
  ⟨s.data.filter (fun c => !p c)⟩

/-- Worker for `collapseWsRuns`; `inRun` records whether the previous
character belonged to the whitespace run currently being replaced. -/
def collapseWsGo (rep : List Char) (inRun : Bool) : List Char → List Char
  | [] => []
  | c :: t =>
    if jsIsSpace c then (if inRun then [] else rep) ++ collapseWsGo rep true t
    else c :: collapseWsGo rep false t

/-- `.replace(/\s+/g, rep)`: every maximal whitespace run becomes `rep`. -/
def collapseWsRuns (rep : List Char) (l : List Char) : List Char :=
  collapseWsGo rep false l

-- ===== Data model =====

/-- Decidable equality of `Except` results, for evaluating concrete runs. -/
instance {e a : Type} [DecidableEq e] [DecidableEq a] : DecidableEq (Except e a) := fun x y =>
  match x, y with
  | Except.error e1, Except.error e2 => decidable_of_iff (e1 = e2) (by simp)
  | Except.ok a1, Except.ok a2 => decidable_of_iff (a1 = a2) (by simp)
  | Except.error _, Except.ok _ => isFalse (fun h => Except.noConfusion h)
  | Except.ok _, Except.error _ => isFalse (fun h => Except.noConfusion h)

/-- A thrown JavaScript exception. -/
inductive JsErr where
  /-- e.g. a property access on `undefined` -/
  | typeError : String → JsErr
  /-- reading an undeclared identifier -/
  | referenceError : String → JsErr
deriving DecidableEq, Repr

/-- `'high' | 'medium' | 'low'` -/
inductive Priority where
  | high | medium | low
deriving DecidableEq, Repr

/-- The string a `Priority` value is at runtime. -/
def priorityKey : Priority → String
  | .high => "high"
  | .medium => "medium"
  | .low => "low"

/-- `'user-story' | 'feature' | 'requirement' | 'acceptance-criteria'` -/
inductive ReqType where
  | userStory | feature | requirement | acceptanceCriteria
deriving DecidableEq, Repr

/-- The string a `ReqType` value is at runtime. -/
def reqTypeKey : ReqType → String
  | .userStory => "user-story"
  | .feature => "feature"
  | .requirement => "requirement"
  | .acceptanceCriteria => "acceptance-criteria"

/-- `'simple' | 'medium' | 'complex'` -/
inductive Complexity where
  | simple | medium | complex
deriving DecidableEq, Repr

/-- The string a `Complexity` value is at runtime. -/
def complexityKey : Complexity → String
  | .simple => "simple"
  | .medium => "medium"
  | .complex => "complex"

/-- `ParsedRequirement` (PRDParser.ts).  A field the source declares optional,
or one a construction site may leave unset (`description` on feature records),
is an `Option`. -/
structure ParsedRequirement where
  id : String
  title : String
  description : Option String := none
  type : ReqType
  priority : Priority
  actor : Option String := none
  goal : Option String := none
  value : Option String := none
  acceptanceCriteria : Option (List String) := none
  dependencies : Option (List String) := none
  tags : Option (List String) := none
deriving DecidableEq, Repr

/-- The `metadata` record of `ParsedPRD`; the count tables are
insertion-ordered JS objects. -/
structure PRDCounts where
  totalRequirements : Nat
  byType : List (String × Nat)
  byPriority : List (String × Nat)
deriving DecidableEq, Repr

/-- `ParsedPRD` (PRDParser.ts). -/
structure ParsedPRD where
  title : String
  description : String
  version : String
  author : Option String
  stakeholders : Option (List String)
  requirements : List ParsedRequirement
  metadata : PRDCounts
deriving DecidableEq, Repr

/-- `UserFlow` (FeatureExtractor.ts). -/
structure UserFlow where
  id : String
  name : String
  description : Option String
  steps : List String
  actor : String
deriving DecidableEq, Repr

/-- `ExtractedFeature` (FeatureExtractor.ts). -/
structure ExtractedFeature where
  id : String
  name : String
  description : Option String
  requirements : List ParsedRequirement
  dependencies : List String
  priority : Priority
  complexity : Complexity
  estimatedScenarios : Nat
  userFlows : List UserFlow
deriving DecidableEq, Repr

/-- `GherkinStep` (the `@bddai/types` shape used by ScenarioGenerator). -/
structure GherkinStep where
  keyword : String
  text : String
  line : Nat
deriving DecidableEq, Repr

/-- Scenario `type`. -/
inductive SType where
  | happyPath | errorCase | edgeCase | integration
deriving DecidableEq, Repr

/-- Scenario `source`. -/
inductive SSource where
  | userStory | acceptanceCriteria | generated
deriving DecidableEq, Repr

/-- `GeneratedScenario` (ScenarioGenerator.ts).  `confidence` is stored in
tenths (9 = 0.9); every confidence in the source is a one-decimal literal. -/
structure GeneratedScenario where
  name : String
  description : Option String := none
  tags : List String
  steps : List GherkinStep
  type : SType
  source : SSource
  confidence : Nat
deriving DecidableEq, Repr

/-- `ScenarioGenerationOptions` (ScenarioGenerator.ts).  `detailLevel` is a
plain string at runtime: the TS union type is not enforced by any check. -/
structure ScenarioGenerationOptions where
  includeEdgeCases : Bool
  includeErrorCases : Bool
  includeIntegrationScenarios : Bool
  maxScenariosPerFlow : Nat
  detailLevel : String
deriving DecidableEq, Repr

/-- `Partial<ScenarioGenerationOptions>` as passed by callers. -/
structure PartialScenarioOptions where
  includeEdgeCases : Option Bool := none
  includeErrorCases : Option Bool := none
  includeIntegrationScenarios : Option Bool := none
  maxScenariosPerFlow : Option Nat := none
  detailLevel : Option String := none
deriving DecidableEq, Repr

/-- `GherkinTag`. -/
structure GherkinTag where
  name : String
  line : Nat
deriving DecidableEq, Repr

/-- `GherkinScenario`. -/
structure GherkinScenario where
  name : String
  keyword : String
  description : Option String
  line : Nat
  tags : List GherkinTag
  steps : List GherkinStep
deriving DecidableEq, Repr

/-- `GherkinFeature`. -/
structure GherkinFeature where
  uri : String
  name : String
  keyword : String
  description : Option String
  line : Nat
  tags : List GherkinTag
  scenarios : List GherkinScenario
  scenarioOutlines : List GherkinScenario
deriving DecidableEq, Repr

/-- `ValidationResult` (RequirementsAnalyzer.ts). -/
structure ValidationResult where
  isValid : Bool
  warnings : List String
  errors : List String
  score : Int
deriving DecidableEq, Repr

/-- The `summary` record of `AnalysisResult`. -/
structure AnalysisSummary where
  totalFeatures : Nat
  totalScenarios : Nat
  byComplexity : List (String × Nat)
  byPriority : List (String × Nat)
deriving DecidableEq, Repr

/-- `AnalysisResult` (RequirementsAnalyzer.ts); the two `Map`s are
insertion-ordered association lists keyed by feature id. -/
structure AnalysisResult where
  prd : ParsedPRD
  features : List ExtractedFeature
  scenarios : List (String × List GeneratedScenario)
  gherkinFeatures : List (String × GherkinFeature)
  summary : AnalysisSummary
  recommendations : List String
  validation : ValidationResult
deriving DecidableEq, Repr

-- ===== PRDParser =====

namespace PRDParser

/-- The zero-padded sequential id `REQ-…` assigned in `parseContent`
(`` `REQ-${String(index + 1).padStart(3, '0')}` ``). -/
def reqIdStr (n : Nat) : String := "REQ-" ++ String.mk (padStart3 (decimalChars n))

/-- A JS non-null assertion `x!` followed by a use of the value: throws a
`TypeError` when the value is actually `null`/`undefined`. -/
def jsNonNull {α : Type} (v : Option α) (what : String) : Except JsErr α :=
  match v with
  | some a => Except.ok a
  | none => Except.error (JsErr.typeError what)

/-- The mutable `metadata` object built by `extractMetadata`; `stakeholders`
is declared downstream but never assigned. -/
structure PRDMetadata where
  title : Option String := none
  description : Option String := none
  version : Option String := none
  author : Option String := none
deriving DecidableEq, Repr

/-- One iteration of the `extractMetadata` loop over `line`. -/
def metadataStep (lines : List String) (md : PRDMetadata) (line : String) :
    Except JsErr PRDMetadata := do
  -- Title patterns
  let md ←
    if reTestAt titleRe line then do
      let m ← jsNonNull (reMatchAt titleRe line.data) ("title match")
      pure { md with title := (getGrp m.2 1).map String.mk }
    else pure md
  -- Version patterns
  let md ←
    if reTestSearch versionRe line then do
      let m ← jsNonNull (reSearch versionRe line.data) ("version match")
      pure { md with version := (getGrp m.2.2 1).map String.mk }
    else pure md
  -- Author patterns
  let md ←
    if reTestSearch authorRe line then do
      let m ← jsNonNull (reSearch authorRe line.data) ("author match")
      pure { md with author := (getGrp m.2.2 1).map String.mk }
    else pure md
  -- Description (first paragraph after title); `lines.indexOf(line)` finds the
  -- first occurrence of an equal line, and the loop concatenates `line + '\n'`
  -- until a line starting with '#'
  let md :=
    if !jsTruthy md.description && jsTruthy md.title && jsTrim line ≠ "" then
      let dstart := lines.findIdx (fun l2 => l2 == line)
      let body := ((lines.drop dstart).takeWhile (fun l2 => !jsStartsWith l2 ("#"))).map
        (fun l2 => l2 ++ "\n")
      { md with description := some (jsTrim (String.join body)) }
    else md
  pure md

/-- `PRDParser.extractMetadata`. -/
def extractMetadata (lines : List String) : Except JsErr PRDMetadata :=
  lines.foldlM (metadataStep lines) {}

/-- `PRDParser.extractUserStories`: run the global user-story pattern over the
re-joined content; every match becomes one `user-story` requirement.
Groups 1 and 2 are not optional, so they are always captured on a match
(`getD ""` is dead). -/
def extractUserStories (lines : List String) : List ParsedRequirement :=
  let content := joinSep ("\n") lines
  (jsExecAll userStoryRe content.data).map (fun m =>
    let full := String.mk (matchedText m.1 m.2.1)
    let g1 := ((getGrp m.2.2 1).map String.mk).getD ""
    let g2 := ((getGrp m.2.2 2).map String.mk).getD ""
    let g3 := (getGrp m.2.2 3).map String.mk
    { id := "", title := "User Story: " ++ g2, description := some full,
      type := ReqType.userStory, priority := Priority.medium,
      actor := some (jsTrim g1), goal := some (jsTrim g2), value := g3.map jsTrim,
      tags := some ["user-story"] })

/-- `/^\d+\./` — the numbered-line test used by the description branch of
`extractFeatures` (note: no trailing `\s+`, unlike `numberedRe`). -/
def numberedDotRe : RE := reSeqL [rePlus true (.cls jsIsDigit), .ch '.']

/-- Loop state of `PRDParser.extractFeatures`. -/
structure FeatState where
  currentFeature : Option ParsedRequirement := none
  inFeature : Bool := false
  features : List ParsedRequirement := []
deriving DecidableEq, Repr

/-- The "Feature heading" `if` block of the `extractFeatures` loop body. -/
def featStepHead (st : FeatState) (line : String) : FeatState :=
  if jsStartsWith line ("Feature:") || reTestAt featureHeadRe line then
    let fs :=
      match st.currentFeature, st.inFeature with
      | some cf, true => st.features ++ [cf]
      | _, _ => st.features
    let nf : ParsedRequirement :=
      { id := "", title := jsReplaceAnchored featureTitleStripRe line,
        type := ReqType.feature, priority := Priority.medium,
        acceptanceCriteria := some [], tags := some ["feature"] }
    { currentFeature := some nf, inFeature := true, features := fs }
  else st

/-- The "Acceptance criteria" `if` block of the loop body (the `!` on
`acceptanceCriteria` is safe: the field is initialised to `[]` whenever
`currentFeature` is set, and never cleared). -/
def featStepCrit (st : FeatState) (line : String) : FeatState :=
  if st.inFeature && st.currentFeature.isSome
      && (reTestAt bulletRe line || reTestAt numberedRe line) then
    match st.currentFeature with
    | some cf =>
      { st with currentFeature := some { cf with
          acceptanceCriteria :=
            some ((cf.acceptanceCriteria.getD []) ++ [jsReplaceAnchored criterionStripRe line]) } }
    | none => st
  else st

/-- The "Description lines" `if` block of the loop body. -/
def featStepDesc (st : FeatState) (line : String) : FeatState :=
  if st.inFeature && st.currentFeature.isSome && line ≠ ""
      && !jsStartsWith line ("#") && !jsStartsWith line ("-")
      && !reTestAt numberedDotRe line && !jsStartsWith line ("Feature:") then
    match st.currentFeature with
    | some cf =>
      { st with currentFeature := some { cf with
          description := some (jsOrStr cf.description ("") ++ line ++ " ") } }
    | none => st
  else st

/-- One iteration of the `extractFeatures` loop; the three `if` blocks run in
sequence on the same (trimmed) line, as in the source. -/
def featStep (st : FeatState) (rawLine : String) : FeatState :=
  let line := jsTrim rawLine
  featStepDesc (featStepCrit (featStepHead st line) line) line

/-- `PRDParser.extractFeatures` (the parser-side, feature-block scanner). -/
def extractFeaturesP (lines : List String) : List ParsedRequirement :=
  let st := lines.foldl featStep {}
  match st.currentFeature, st.inFeature with
  | some cf, true => st.features ++ [cf]
  | _, _ => st.features

/-- One iteration of the `extractRequirements` loop over `line`. -/
def bareReqStep (acc : List ParsedRequirement) (line : String) :
    Except JsErr (List ParsedRequirement) := do
    if reTestAt bareReqRe line then
      let m ← jsNonNull (reMatchAt bareReqRe line.data) ("requirement match")
      let g1 := ((getGrp m.2 1).map String.mk).getD ""
      let g2 := ((getGrp m.2 2).map String.mk).getD ""
      -- `(priorityMatch ? priorityMatch[1].toLowerCase() : 'medium') as any`;
      -- the alternation admits only the three priority words, so the
      -- lower-cased capture is exactly one of them
      let pr : Priority :=
        match reSearch priorityRe line.data with
        | some sm =>
          match jsToLower (((getGrp sm.2.2 1).map String.mk).getD "") with
          | "high" => Priority.high
          | "low" => Priority.low
          | _ => Priority.medium
        | none => Priority.medium
      let nr : ParsedRequirement :=
        { id := "", title := jsTrim g1, description := some (jsTrim g2),
          type := ReqType.requirement, priority := pr, tags := some ["requirement"] }
      pure (acc ++ [nr])
    else pure acc

/-- `PRDParser.extractRequirements`. -/
def extractRequirements (lines : List String) : Except JsErr (List ParsedRequirement) :=
  lines.foldlM bareReqStep []

/-- `PRDParser.groupByType`. -/
def groupByType (reqs : List ParsedRequirement) : List (String × Nat) :=
  reqs.foldl (fun acc r => recInc acc (reqTypeKey r.type)) []

/-- `PRDParser.groupByPriority`. -/
def groupByPriority (reqs : List ParsedRequirement) : List (String × Nat) :=
  reqs.foldl (fun acc r => recInc acc (priorityKey r.priority)) []

/-- The id-assignment pass `requirements.forEach((req, index) => req.id =
req.id || ...)`, with the running index made explicit. -/
def assignIds : Nat → List ParsedRequirement → List ParsedRequirement
  | _, [] => []
  | i, r :: rs =>
    { r with id := if r.id = "" then reqIdStr (i + 1) else r.id } :: assignIds (i + 1) rs

/-- `PRDParser.parseContent`. -/
def parseContent (content : String) : Except JsErr ParsedPRD := do
  let lines := jsSplitLines content
  let metadata ← extractMetadata lines
  let userStories := extractUserStories lines
  let features := extractFeaturesP lines
  let requirementsList ← extractRequirements lines
  let requirements := assignIds 0 (userStories ++ features ++ requirementsList)
  pure {
    title := jsOrStr metadata.title ("Untitled PRD"),
    description := jsOrStr metadata.description (""),
    version := jsOrStr metadata.version ("1.0.0"),
    author := metadata.author,
    stakeholders := none,
    requirements := requirements,
    metadata := {
      totalRequirements := requirements.length,
      byType := groupByType requirements,
      byPriority := groupByPriority requirements } }

end PRDParser

-- ===== FeatureExtractor =====

namespace FeatureExtractor

/-- `/\s+/` as used globally by `split` and `replace`. -/
def wsRunRe : RE := rePlus true reWs

/-- `${v}` interpolation of a possibly-`undefined` string. -/
def jsInterp (v : Option String) : String := v.getD "undefined"

/-- `[...new Set(l)]`: deduplicate keeping first occurrences. -/
def dedupKeep (l : List String) : List String :=
  l.foldl (fun acc x => if acc.contains x then acc else acc ++ [x]) []

/-- The stop-word set of `FeatureExtractor.isStopWord`. -/
def stopWords : List String :=
  ["the", "be", "to", "of", "and", "a", "in", "that", "have",
   "i", "it", "for", "not", "on", "with", "he", "as", "you",
   "do", "at", "this", "but", "his", "by", "from", "they",
   "we", "say", "her", "she", "or", "an", "will", "my",
   "one", "all", "would", "there", "their", "what", "so",
   "up", "out", "if", "about", "who", "get", "which", "go",
   "me", "when", "make", "can", "like", "time", "no", "just",
   "him", "know", "take", "people", "into", "year", "your",
   "good", "some", "could", "them", "see", "other", "than",
   "then", "now", "look", "only", "come", "its", "over", "think",
   "also", "back", "after", "use", "two", "how", "our", "work",
   "first", "well", "way", "even", "new", "want", "because",
   "any", "these", "give", "day", "most", "us", "is", "was",
   "are", "been", "has", "had", "were", "said", "did", "getting",
   "made", "find", "where", "much", "too", "very", "still",
   "being", "going", "why", "before", "never", "here", "more"]

/-- `FeatureExtractor.isStopWord`. -/
def isStopWord (w : String) : Bool := stopWords.contains w

/-- `FeatureExtractor.extractKeywords`. -/
def extractKeywords (r : ParsedRequirement) : List String :=
  let text := r.title ++ " " ++ jsInterp r.description ++ " " ++ jsOrStr r.goal ("")
  let cleaned := jsReplaceClassWith (fun c => !(jsIsWordChar c || jsIsSpace c)) ' ' (jsToLower text)
  let words := (jsSplitRe wsRunRe cleaned).filter (fun w => w.length > 3 && !isStopWord w)
  dedupKeep words

/-- `calculateSimilarity k1 k2 > num / den`, decided with exact rational
arithmetic.  The source compares the float `intersection.size / union.size`
against the literals `0.3` / `0.4`; for the integer ratios arising here the
float comparison and the rational comparison agree (the rounding error of one
division is far below the gap `1 / (den·union)`), including `0/0`, where JS
yields `NaN > x = false` and this definition also gives `false`. -/
def simGT (k1 k2 : List String) (num den : Nat) : Bool :=
  let set1 := dedupKeep k1
  let set2 := dedupKeep k2
  let inter := set1.filter (fun x => set2.contains x)
  let union := dedupKeep (set1 ++ set2)
  den * inter.length > num * union.length

/-- A requirement together with the position giving it its JS object
identity. -/
def IdxReq := Nat × ParsedRequirement

/-- `FeatureExtractor.findRelatedRequirements` (the `> 0.3` pass). -/
def findRelatedRequirements (feature : IdxReq) (allReqs : List IdxReq) : List IdxReq :=
  let keywords := extractKeywords feature.2
  allReqs.filter (fun rq => rq.1 != feature.1 && simGT keywords (extractKeywords rq.2) 3 10)

/-- `word.endsWith(suffix)`. -/
def jsEndsWith (s suf : String) : Bool := listStartsWith s.data.reverse suf.data.reverse

/-- `FeatureExtractor.extractTheme`. -/
def extractTheme (r : ParsedRequirement) : String :=
  if r.type = ReqType.userStory && jsTruthy r.goal then
    String.mk ((splitOnChar ' ' (r.goal.getD "").data).headD [])
  else if r.type = ReqType.feature then r.title
  else
    let words := (splitOnChar ' ' r.title.data).map String.mk
    let verbs := words.filter (fun w => jsEndsWith w ("e") || jsEndsWith w ("ed") || jsEndsWith w ("ing"))
    jsOrStr verbs.head? (jsOrStr words.head? ("General"))

/-- `Map.prototype.set`: overwrite in place or append. -/
def mapSet {α : Type} (m : List (String × α)) (k : String) (v : α) : List (String × α) :=
  if m.any (fun p => p.1 == k) then m.map (fun p => if p.1 == k then (p.1, v) else p)
  else m ++ [(k, v)]

/-- `map.get(k)!.push(x)`: append to the list stored under an existing key. -/
def mapPush {α : Type} (m : List (String × List α)) (k : String) (x : α) : List (String × List α) :=
  m.map (fun p => if p.1 == k then (p.1, p.2 ++ [x]) else p)

/-- `FeatureExtractor.identifyThemes` (the `> 0.4` thematic pass), with the
`used` set holding requirement identities. -/
def identifyThemes (requirements : List IdxReq) : List (String × List IdxReq) :=
  let step := fun (st : List Nat × List (String × List IdxReq)) (req : IdxReq) =>
    if st.1.contains req.1 then st
    else
      let theme := extractTheme req.2
      let themes := if st.2.any (fun p => p.1 == theme) then st.2 else st.2 ++ [(theme, [])]
      let themes := mapPush themes theme req
      let used := st.1 ++ [req.1]
      requirements.foldl (fun st2 other =>
        if st2.1.contains other.1 then st2
        else
          let reqKeywords := extractKeywords req.2
          let otherKeywords := extractKeywords other.2
          if simGT reqKeywords otherKeywords 4 10 then
            (st2.1 ++ [other.1], mapPush st2.2 theme other)
          else st2) (used, themes)
  (requirements.foldl step ([], [])).2

/-- `FeatureExtractor.groupRequirements`.  Identity of requirement objects is
their position in the input list.  Note the source's own quirks are kept: an
explicit feature seeds (or overwrites, on a duplicate title) its own group
even when an earlier feature already claimed it, and a theme named like a
feature title overwrites that feature's group. -/
def groupRequirements (reqs : List ParsedRequirement) : List (String × List IdxReq) :=
  let idx := reqs.enum
  let explicitFeatures := idx.filter (fun rq => rq.2.type = ReqType.feature)
  let afterExplicit := explicitFeatures.foldl
    (fun (st : List (String × List IdxReq) × List Nat) feature =>
      let groups := mapSet st.1 feature.2.title [feature]
      let processed := st.2 ++ [feature.1]
      let related := findRelatedRequirements feature idx
      related.foldl (fun st2 rq =>
        if st2.2.contains rq.1 then st2
        else (mapPush st2.1 feature.2.title rq, st2.2 ++ [rq.1])) (groups, processed))
    ([], [])
  let remaining := idx.filter (fun rq => !afterExplicit.2.contains rq.1)
  let themes := identifyThemes remaining
  themes.foldl (fun groups t => mapSet groups t.1 t.2) afterExplicit.1

/-- `FeatureExtractor.sanitizeFeatureName`. -/
def sanitizeFeatureName (name : String) : String :=
  let dropped := jsDeleteClass (fun c => !(jsIsAlnum c || jsIsSpace c || c == '-')) name
  jsTrim ⟨collapseWsRuns (" ".data) dropped.data⟩

/-- `FeatureExtractor.generateDescription`. -/
def generateDescription (theme : String) (reqs : List ParsedRequirement) : String :=
  let ds := (reqs.filterMap (fun r => if jsTruthy r.description then r.description else none)).take 3
  let j := joinSep (" ") ds
  if j = "" then "Feature related to " ++ theme else j

/-- `FeatureExtractor.determinePriority`. -/
def determinePriority (reqs : List ParsedRequirement) : Priority :=
  let priorities := reqs.map (·.priority)
  if priorities.contains Priority.high then Priority.high
  else if priorities.contains Priority.medium then Priority.medium
  else Priority.low

/-- `FeatureExtractor.estimateComplexity`. -/
def estimateComplexity (reqs : List ParsedRequirement) : Complexity :=
  let count := reqs.length
  let hasDependencies := reqs.any (fun r =>
    match r.dependencies with
    | some d => d.length > 0
    | none => false)
  let actors := dedupKeep (reqs.filterMap (fun r => if jsTruthy r.actor then r.actor else none))
  let hasMultipleActors := actors.length > 1
  if count > 5 || hasDependencies || hasMultipleActors then Complexity.complex
  else if count > 2 then Complexity.medium
  else Complexity.simple

/-- `FeatureExtractor.parseCriteriaIntoSteps`. -/
def parseCriteriaIntoSteps (criteria : String) : List String :=
  let steps := ((jsSplitRe criteriaSplitRe criteria).map jsTrim).filter (fun s => s.length > 0)
  if steps.length = 1 then
    ((jsSplitRe punctSplitRe criteria).map jsTrim).filter (fun s => s.length > 0)
  else steps

/-- `FeatureExtractor.createUserFlowFromStory`. -/
def createUserFlowFromStory (story : ParsedRequirement) : UserFlow :=
  { id := story.id ++ "-flow",
    name := jsOrStr story.goal ("User Flow"),
    description := story.description,
    steps := ["User initiates action", jsOrStr story.goal ("Complete goal"),
      jsOrStr story.value ("Achieve value")],
    actor := jsOrStr story.actor ("User") }

/-- `FeatureExtractor.extractUserFlows`. -/
def extractUserFlows (reqs : List ParsedRequirement) : List UserFlow :=
  reqs.flatMap (fun r =>
    let storyFlows :=
      if r.type = ReqType.userStory && jsTruthy r.actor && jsTruthy r.goal then
        [createUserFlowFromStory r]
      else []
    let critFlows :=
      match r.acceptanceCriteria with
      | some cs =>
        cs.enum.filterMap (fun ic =>
          let steps := parseCriteriaIntoSteps ic.2
          let fl : UserFlow :=
            { id := r.id ++ "-flow-" ++ jsString ic.1, name := "Flow for " ++ r.title,
              description := some ic.2, steps := steps,
              actor := jsOrStr r.actor ("User") }
          if steps.length > 1 then some fl else none)
      | none => []
    storyFlows ++ critFlows)

/-- `FeatureExtractor.extractDependencies`. -/
def extractDependencies (reqs : List ParsedRequirement) : List String :=
  dedupKeep (reqs.flatMap (fun r => r.dependencies.getD []))

/-- `FeatureExtractor.estimateScenarios`. -/
def estimateScenarios (reqs : List ParsedRequirement) (userFlows : List UserFlow) : Nat :=
  let estimate := reqs.length
  let complexFlows := userFlows.filter (fun f => f.steps.length > 3)
  let estimate := estimate + complexFlows.length
  let criteriaCount := (reqs.map (fun r => (r.acceptanceCriteria.getD []).length)).sum
  let estimate := estimate + (criteriaCount + 2) / 3
  max estimate 1

/-- `FeatureExtractor.createFeature` (the `acceptanceCriteria` local of the
source is computed and never used; it is omitted here). -/
def createFeature (theme : String) (requirements : List ParsedRequirement) : ExtractedFeature :=
  let featureRequirements := requirements.filter (fun r => r.type ≠ ReqType.acceptanceCriteria)
  let priority := determinePriority requirements
  let complexity := estimateComplexity requirements
  let userFlows := extractUserFlows requirements
  { id := "FEAT-" ++ jsToUpper ⟨collapseWsRuns ("-".data) theme.data⟩,
    name := sanitizeFeatureName theme,
    description := some (generateDescription theme requirements),
    requirements := featureRequirements,
    dependencies := extractDependencies requirements,
    priority := priority,
    complexity := complexity,
    estimatedScenarios := estimateScenarios requirements userFlows,
    userFlows := userFlows }

/-- `FeatureExtractor.createFeatureFromRequirement`.  Note the hard-coded
`complexity: 'medium'` and `estimatedScenarios: 1`. -/
def createFeatureFromRequirement (requirement : ParsedRequirement) : ExtractedFeature :=
  let theme := jsOrStr (some requirement.title) (jsOrStr requirement.goal ("General"))
  let userFlows :=
    if requirement.type = ReqType.userStory then [createUserFlowFromStory requirement] else []
  { id := "FEAT-" ++ requirement.id,
    name := sanitizeFeatureName theme,
    description := requirement.description,
    requirements := [requirement],
    dependencies := requirement.dependencies.getD [],
    priority := requirement.priority,
    complexity := Complexity.medium,
    estimatedScenarios := 1,
    userFlows := userFlows }

/-- `FeatureExtractor.extractFeatures`.  After building one feature per
requirement group, line 51 of the source reads the undeclared identifier
`groupedFeatures` (the TypeScript error is suppressed with `@ts-ignore`), so
at runtime every call throws a `ReferenceError` before the
standalone-requirement pass and the priority sort are reached. -/
def extractFeatures (prd : ParsedPRD) : Except JsErr (List ExtractedFeature) :=
  let requirementGroups := groupRequirements prd.requirements
  let features := requirementGroups.map (fun g => createFeature g.1 (g.2.map Prod.snd))
  let _ := features
  Except.error (JsErr.referenceError ("groupedFeatures is not defined"))

end FeatureExtractor

-- ===== ScenarioGenerator =====

namespace ScenarioGenerator

/-- The `defaultOptions` field of `ScenarioGenerator`. -/
def defaultOptions : ScenarioGenerationOptions :=
  { includeEdgeCases := true, includeErrorCases := true,
    includeIntegrationScenarios := true, maxScenariosPerFlow := 5,
    detailLevel := "standard" }

/-- `{ ...this.defaultOptions, ...options }`. -/
def mergeOptions (p : PartialScenarioOptions) : ScenarioGenerationOptions :=
  { includeEdgeCases := p.includeEdgeCases.getD defaultOptions.includeEdgeCases,
    includeErrorCases := p.includeErrorCases.getD defaultOptions.includeErrorCases,
    includeIntegrationScenarios :=
      p.includeIntegrationScenarios.getD defaultOptions.includeIntegrationScenarios,
    maxScenariosPerFlow := p.maxScenariosPerFlow.getD defaultOptions.maxScenariosPerFlow,
    detailLevel := p.detailLevel.getD defaultOptions.detailLevel }

/-- `ScenarioGenerator.generateScenarioName`. -/
def generateScenarioName (baseName ty : String) : String :=
  let cleanName := jsTrim (jsReplaceClassWith (fun c => !(jsIsAlnum c || jsIsSpace c)) ' ' baseName)
  match ty with
  | "success" => cleanName ++ " - Success"
  | "partial" => cleanName ++ " - Partial completion"
  | "criteria" => cleanName
  | _ => cleanName

/-- `ScenarioGenerator.generateStepsFromFlow` (its `type` parameter is unused
in the source body). -/
def generateStepsFromFlow (flow : UserFlow) (_ty : String) : List GherkinStep :=
  let given : GherkinStep :=
    { keyword := "Given", text := "the " ++ jsToLower flow.actor ++ " is on the relevant screen",
      line := 1 }
  let flowSteps := flow.steps.enum.map (fun ie =>
    ({ keyword := if ie.1 = 0 then "When" else "And", text := ie.2, line := ie.1 + 2 } : GherkinStep))
  let outcome : GherkinStep :=
    { keyword := "Then", text := "the expected outcome should occur",
      line := flow.steps.length + 2 }
  [given] ++ flowSteps ++ [outcome]

/-- `ScenarioGenerator.generatePartialSteps`. -/
def generatePartialSteps (flow : UserFlow) : List GherkinStep :=
  let partialFlow := flow.steps.take (flow.steps.length / 2)
  let given : GherkinStep :=
    { keyword := "Given", text := "the " ++ jsToLower flow.actor ++ " is performing an action",
      line := 1 }
  let mid := partialFlow.enum.map (fun ie =>
    ({ keyword := if ie.1 = 0 then "When" else "And", text := ie.2, line := ie.1 + 2 } : GherkinStep))
  let outcome : GherkinStep :=
    { keyword := "Then", text := "the system should handle partial completion",
      line := partialFlow.length + 2 }
  [given] ++ mid ++ [outcome]

/-- `ScenarioGenerator.generateStepsFromCriteria`. -/
def generateStepsFromCriteria (criteria : List String) : List GherkinStep :=
  let pre : GherkinStep := { keyword := "Given", text := "the system is in the initial state", line := 1 }
  let act : GherkinStep := { keyword := "When", text := "the relevant action is performed", line := 2 }
  let asserts := criteria.enum.map (fun ic =>
    ({ keyword := if ic.1 = 0 then "Then" else "And", text := ic.2, line := ic.1 + 3 } : GherkinStep))
  [pre, act] ++ asserts

/-- `ScenarioGenerator.groupRelatedCriteria`: chunks of at most 5, in order
(`maxCriteriaPerGroup = 5`; the loop advances by five elements at a time). -/
def groupRelatedCriteria : List String → List (List String)
  | [] => []
  | [a] => [[a]]
  | [a, b] => [[a, b]]
  | [a, b, c] => [[a, b, c]]
  | [a, b, c, d] => [[a, b, c, d]]
  | a :: b :: c :: d :: e :: t => [a, b, c, d, e] :: groupRelatedCriteria t

/-- `ScenarioGenerator.generateScenariosFromFlow` (its `feature` parameter is
unused in the source body). -/
def generateScenariosFromFlow (flow : UserFlow) (_feature : ExtractedFeature)
    (options : ScenarioGenerationOptions) : List GeneratedScenario :=
  let happyPath : GeneratedScenario :=
    { name := generateScenarioName flow.name ("success"),
      description := flow.description,
      tags := ["@happy-path", "@actor-" ++ jsToLower flow.actor],
      steps := generateStepsFromFlow flow ("happy-path"),
      type := SType.happyPath, source := SSource.userStory, confidence := 9 }
  let partialScenario : GeneratedScenario :=
    { name := generateScenarioName flow.name ("partial"),
      description := some ("Partial completion of " ++ flow.name),
      tags := ["@partial"],
      steps := generatePartialSteps flow,
      type := SType.edgeCase, source := SSource.generated, confidence := 7 }
  let scenarios :=
    if options.detailLevel = "detailed" && flow.steps.length > 2 then
      [happyPath, partialScenario]
    else [happyPath]
  scenarios.take options.maxScenariosPerFlow

/-- `ScenarioGenerator.generateScenariosFromCriteria` (its `options` parameter
is unused in the source body). -/
def generateScenariosFromCriteria (feature : ExtractedFeature)
    (_options : ScenarioGenerationOptions) : List GeneratedScenario :=
  feature.requirements.flatMap (fun req =>
    match req.acceptanceCriteria with
    | some cs =>
      if cs.length > 0 then
        (groupRelatedCriteria cs).map (fun group =>
          ({ name := generateScenarioName req.title ("criteria"),
             description := req.description,
             tags := ["@acceptance-criteria"],
             steps := generateStepsFromCriteria group,
             type := SType.happyPath, source := SSource.acceptanceCriteria,
             confidence := 8 } : GeneratedScenario))
      else []
    | none => [])

/-- `ScenarioGenerator.generateEdgeCases`.  `feature.actor` is not a property
of `ExtractedFeature`, so `feature.actor || 'users'` is always `'users'`. -/
def generateEdgeCases (feature : ExtractedFeature)
    (_options : ScenarioGenerationOptions) : List GeneratedScenario :=
  let boundary : List GeneratedScenario :=
    if jsIncludes (jsToLower feature.name) ("search")
        || jsIncludes (jsToLower feature.name) ("filter") then
      [{ name := feature.name ++ " with boundary values",
         tags := ["@edge-case", "@boundary"],
         steps := [
           { keyword := "Given", text := "the system is at maximum capacity", line := 1 },
           { keyword := "When", text := "the user performs the action", line := 2 },
           { keyword := "Then", text := "the system should handle gracefully", line := 3 }],
         type := SType.edgeCase, source := SSource.generated, confidence := 6 }]
    else []
  let concurrent : GeneratedScenario :=
    { name := "Multiple users performing actions simultaneously",
      tags := ["@edge-case", "@concurrent"],
      steps := [
        { keyword := "Given", text := "multiple users are active in the system", line := 1 },
        { keyword := "When", text := "users perform actions simultaneously", line := 2 },
        { keyword := "Then", text := "all actions should be processed correctly", line := 3 },
        { keyword := "And", text := "data integrity should be maintained", line := 4 }],
      type := SType.edgeCase, source := SSource.generated, confidence := 7 }
  boundary ++ [concurrent]

/-- `ScenarioGenerator.generateErrorCases`. -/
def generateErrorCases (feature : ExtractedFeature)
    (_options : ScenarioGenerationOptions) : List GeneratedScenario :=
  let network : GeneratedScenario :=
    { name := feature.name ++ " with network failure",
      tags := ["@error-case", "@network"],
      steps := [
        { keyword := "Given", text := "the network connection is unavailable", line := 1 },
        { keyword := "When", text := "the user attempts to perform the action", line := 2 },
        { keyword := "Then", text := "the system should display appropriate error message", line := 3 },
        { keyword := "And", text := "the system should retry connection when available", line := 4 }],
      type := SType.errorCase, source := SSource.generated, confidence := 8 }
  let invalidInput : GeneratedScenario :=
    { name := feature.name ++ " with invalid input",
      tags := ["@error-case", "@validation"],
      steps := [
        { keyword := "Given", text := "the user provides invalid input", line := 1 },
        { keyword := "When", text := "the user submits the form", line := 2 },
        { keyword := "Then", text := "the system should validate the input", line := 3 },
        { keyword := "And", text := "the system should show specific error messages", line := 4 },
        { keyword := "And", text := "the system should preserve valid input", line := 5 }],
      type := SType.errorCase, source := SSource.generated, confidence := 9 }
  let unauthorized : List GeneratedScenario :=
    if jsIncludes (jsToLower feature.name) ("auth")
        || jsIncludes (jsToLower feature.name) ("login") then
      [{ name := "Unauthorized access attempt",
         tags := ["@error-case", "@security"],
         steps := [
           { keyword := "Given", text := "the user is not authenticated", line := 1 },
           { keyword := "When", text := "the user tries to access protected resources", line := 2 },
           { keyword := "Then", text := "the system should deny access", line := 3 },
           { keyword := "And", text := "the system should redirect to login", line := 4 }],
         type := SType.errorCase, source := SSource.generated, confidence := 9 }]
    else []
  [network, invalidInput] ++ unauthorized

/-- `ScenarioGenerator.generateIntegrationScenarios`. -/
def generateIntegrationScenarios (feature : ExtractedFeature)
    (_options : ScenarioGenerationOptions) : List GeneratedScenario :=
  feature.dependencies.map (fun dependency =>
    ({ name := feature.name ++ " integrates with " ++ dependency,
       tags := ["@integration", "@dependency-" ++ dependency],
       steps := [
         { keyword := "Given", text := dependency ++ " service is available", line := 1 },
         { keyword := "And", text := "the system is configured to use " ++ dependency, line := 2 },
         { keyword := "When", text := "the feature needs to communicate with " ++ dependency, line := 3 },
         { keyword := "Then", text := "the integration should work seamlessly", line := 4 },
         { keyword := "And", text := "data should be synchronized correctly", line := 5 }],
       type := SType.integration, source := SSource.generated, confidence := 7 } : GeneratedScenario))

/-- The deduplication key `` `${scenario.name}-${scenario.steps.map(s => s.text).join('|')}` ``. -/
def scenarioKey (s : GeneratedScenario) : String :=
  s.name ++ "-" ++ joinSep ("|") (s.steps.map (·.text))

/-- `ScenarioGenerator.deduplicateScenarios`: keep the first scenario for each
key. -/
def deduplicateScenarios (scenarios : List GeneratedScenario) : List GeneratedScenario :=
  (scenarios.foldl (fun (st : List String × List GeneratedScenario) s =>
    let key := scenarioKey s
    if st.1.contains key then st else (st.1 ++ [key], st.2 ++ [s])) ([], [])).2

/-- The `typeOrder` table of `sortScenariosByPriority`. -/
def typeOrder : SType → Int
  | SType.happyPath => 1
  | SType.integration => 2
  | SType.edgeCase => 3
  | SType.errorCase => 4

/-- Code-point comparison of strings, standing in for
`a.name.localeCompare(b.name)`; it only orders names within one type and
confidence bucket. -/
def listCmp : List Char → List Char → Int
  | [], [] => 0
  | [], _ :: _ => -1
  | _ :: _, [] => 1
  | a :: xs, b :: ys =>
    if a.toNat < b.toNat then -1 else if b.toNat < a.toNat then 1 else listCmp xs ys

/-- The comparator of `sortScenariosByPriority`: type order, then descending
confidence, then name. -/
def scenarioCmp (a b : GeneratedScenario) : Int :=
  let typeDiff := typeOrder a.type - typeOrder b.type
  if typeDiff ≠ 0 then typeDiff
  else
    let confidenceDiff := (b.confidence : Int) - (a.confidence : Int)
    if confidenceDiff ≠ 0 then confidenceDiff
    else listCmp a.name.data b.name.data

/-- Insert `x` after every already-placed element that compares `≤ 0`
against… i.e. after all elements the comparator does not strictly order after
`x`; with the elements inserted left to right this is the unique stable sort
for a total preorder comparator. -/
def insertCmp (x : GeneratedScenario) : List GeneratedScenario → List GeneratedScenario
  | [] => [x]
  | y :: t => if scenarioCmp y x ≤ 0 then y :: insertCmp x t else x :: y :: t

/-- `ScenarioGenerator.sortScenariosByPriority`; `Array.prototype.sort` is
stable (required since ES2019), and for the total preorder induced by
`scenarioCmp` the stable sorted sequence is unique, so a stable insertion
sort produces it. -/
def sortScenariosByPriority (scenarios : List GeneratedScenario) : List GeneratedScenario :=
  scenarios.foldl (fun acc s => insertCmp s acc) []

/-- The body of `ScenarioGenerator.generateScenarios` after the option
merge. -/
def generateScenariosMerged (feature : ExtractedFeature)
    (opts : ScenarioGenerationOptions) : List GeneratedScenario :=
  let flowScenarios := feature.userFlows.flatMap (fun flow =>
    generateScenariosFromFlow flow feature opts)
  let criteriaScenarios := generateScenariosFromCriteria feature opts
  let edgeCases := if opts.includeEdgeCases then generateEdgeCases feature opts else []
  let errorCases := if opts.includeErrorCases then generateErrorCases feature opts else []
  let integrationScenarios :=
    if opts.includeIntegrationScenarios && feature.dependencies.length > 0 then
      generateIntegrationScenarios feature opts
    else []
  let scenarios := flowScenarios ++ criteriaScenarios ++ edgeCases ++ errorCases
    ++ integrationScenarios
  sortScenariosByPriority (deduplicateScenarios scenarios)

/-- `ScenarioGenerator.generateScenarios`: merge the partial options over the
defaults, then run the body. -/
def generateScenarios (feature : ExtractedFeature) (options : PartialScenarioOptions) :
    List GeneratedScenario :=
  generateScenariosMerged feature (mergeOptions options)

/-- `ScenarioGenerator.convertToGherkinScenario`. -/
def convertToGherkinScenario (s : GeneratedScenario) : GherkinScenario :=
  { name := s.name, keyword := "Scenario", description := s.description, line := 1,
    tags := s.tags.enum.map (fun it => ({ name := it.2, line := it.1 + 2 } : GherkinTag)),
    steps := s.steps }

/-- `ScenarioGenerator.generateFeatureFile`. -/
def generateFeatureFile (feature : ExtractedFeature) (scenarios : List GeneratedScenario) :
    GherkinFeature :=
  { uri := "features/" ++ String.mk (collapseWsRuns ("-".data) (jsToLower feature.name).data)
      ++ ".feature",
    name := feature.name, keyword := "Feature", description := feature.description, line := 1,
    tags := [
      { name := "@priority-" ++ priorityKey feature.priority, line := 2 },
      { name := "@complexity-" ++ complexityKey feature.complexity, line := 3 }],
    scenarios := scenarios.map convertToGherkinScenario,
    scenarioOutlines := [] }

end ScenarioGenerator

-- ===== RequirementsAnalyzer =====

namespace RequirementsAnalyzer

/-- State threaded through the cycle-detection DFS: the `visited` and
`recursionStack` sets and the accumulated `circular` array. -/
structure DfsState where
  visited : List String
  recStack : List String
  circular : List String
deriving DecidableEq, Repr

/-- `dependencyMap.get(featureId) || []`. -/
def depsLookup (m : List (String × List String)) (k : String) : List String :=
  (((List.find? (fun p => p.1 == k)) m).map (·.2)).getD []

/-- The `for (const dep of dependencies)` loop of `dfs`: run the child call on
each dependency until one reports a cycle. -/
def runDeps (child : String → DfsState → Bool × DfsState) :
    List String → DfsState → Bool × DfsState
  | [], st => (false, st)
  | d :: rest, st =>
    let r := child d st
    if r.1 then r else runDeps child rest r.2

/-- The recursive `dfs` of `detectCircularDependencies`.  The fuel only bounds
the recursion depth, which never exceeds the number of distinct ids `dfs` can
add to `visited` plus one (each nested call first adds its unvisited id), so
the fuel chosen by `detectCircularDependencies` is never exhausted.  When the
id is on the recursion stack but not on `path` (possible because the stack is
not unwound after a found cycle), `path.indexOf` gives `-1` and
`path.slice(-1)` keeps just the last element, mirrored here explicitly. -/
def dfsVisit (depMap : List (String × List String)) :
    Nat → String → List String → DfsState → Bool × DfsState
  | 0, _, _, st => (false, st)
  | fuel + 1, featureId, path, st =>
    if st.recStack.contains featureId then
      let cycleStart := if path.contains featureId then path.indexOf featureId
        else path.length - 1
      (true, { st with circular := st.circular ++ path.drop cycleStart ++ [featureId] })
    else if st.visited.contains featureId then (false, st)
    else
      let st := { st with visited := st.visited ++ [featureId]
                          recStack := st.recStack ++ [featureId] }
      let deps := depsLookup depMap featureId
      let r := runDeps (fun dep s => dfsVisit depMap fuel dep (path ++ [featureId]) s) deps st
      if r.1 then (true, r.2)
      else (false, { r.2 with recStack := r.2.recStack.erase featureId })

/-- `RequirementsAnalyzer.detectCircularDependencies`. -/
def detectCircularDependencies (features : List ExtractedFeature) : List String :=
  let depMap := features.foldl (fun m f => FeatureExtractor.mapSet m f.id f.dependencies) []
  let fuel := features.length + (features.map (fun f => f.dependencies.length)).sum + 1
  let final := features.foldl (fun (st : DfsState) f =>
    if st.visited.contains f.id then st
    else (dfsVisit depMap fuel f.id [] st).2)
    { visited := [], recStack := [], circular := [] }
  final.circular

/-- `RequirementsAnalyzer.validateRequirements`: the six checks in source
order, each subtracting its fixed penalty, and the final `Math.max(0, score)`
floor. -/
def validateRequirements (prd : ParsedPRD) (features : List ExtractedFeature) :
    ValidationResult :=
  let warnings : List String := []
  let errors : List String := []
  let score : Int := 100
  -- Check for duplicate requirement IDs
  let ids := prd.requirements.map (·.id)
  let duplicateIds := ids.enum.filterMap (fun ii =>
    if ids.indexOf ii.2 ≠ ii.1 then some ii.2 else none)
  let hitDup := duplicateIds.length > 0
  let errors := if hitDup then
    errors ++ ["Duplicate requirement IDs: " ++ joinSep (", ") duplicateIds] else errors
  let score := if hitDup then score - 20 else score
  -- Check for empty requirements
  let emptyRequirements := prd.requirements.filter (fun r =>
    r.title = "" || !jsTruthy r.description || (jsTrim r.title).length = 0)
  let hitEmpty := emptyRequirements.length > 0
  let errors := if hitEmpty then
    errors ++ [jsString emptyRequirements.length
      ++ " requirement(s) have missing titles or descriptions"] else errors
  let score := if hitEmpty then score - 15 else score
  -- Check for orphaned acceptance criteria
  let orphanedCriteria := prd.requirements.filter (fun r =>
    r.type = ReqType.acceptanceCriteria && r.title = "")
  let hitOrphan := orphanedCriteria.length > 0
  let warnings := if hitOrphan then
    warnings ++ [jsString orphanedCriteria.length
      ++ " acceptance criteria without parent requirement"] else warnings
  let score := if hitOrphan then score - 5 else score
  -- Check for very large features
  let largeFeatures := features.filter (fun f => f.requirements.length > 10)
  let hitLarge := largeFeatures.length > 0
  let warnings := if hitLarge then
    warnings ++ [jsString largeFeatures.length
      ++ " feature(s) have many requirements. Consider breaking them down"] else warnings
  let score := if hitLarge then score - 10 else score
  -- Check for missing actors
  let featuresWithoutActors := features.filter (fun f =>
    f.userFlows.length = 0 || f.userFlows.all (fun flow => flow.actor = ""))
  let hitActors := featuresWithoutActors.length > 0
  let warnings := if hitActors then
    warnings ++ [jsString featuresWithoutActors.length
      ++ " feature(s) have undefined actors"] else warnings
  let score := if hitActors then score - 5 else score
  -- Check for circular dependencies
  let circularDeps := detectCircularDependencies features
  let hitCircular := circularDeps.length > 0
  let warnings := if hitCircular then
    warnings ++ ["Circular dependencies detected: " ++ joinSep (" -> ") circularDeps]
    else warnings
  let score := if hitCircular then score - 10 else score
  -- Ensure score does not go below 0
  let score := max 0 score
  { isValid := errors.length = 0, warnings := warnings, errors := errors, score := score }

/-- `RequirementsAnalyzer.createSummary`. -/
def createSummary (features : List ExtractedFeature)
    (scenarios : List (String × List GeneratedScenario)) : AnalysisSummary :=
  let totalScenarios := (scenarios.map (fun p => p.2.length)).sum
  let byComplexity := features.foldl (fun acc f => recInc acc (complexityKey f.complexity)) []
  let byPriority := features.foldl (fun acc f => recInc acc (priorityKey f.priority)) []
  { totalFeatures := features.length, totalScenarios := totalScenarios,
    byComplexity := byComplexity, byPriority := byPriority }

/-- `RequirementsAnalyzer.generateRecommendations`.  The average-scenarios
check divides by `features.length`; on an empty feature list JS computes
`NaN < 2 = false`, written here as an explicit guard.  The `> 0.5` proportion
test is exact in floating point and is written as `2 * complex > total`. -/
def generateRecommendations (prd : ParsedPRD) (features : List ExtractedFeature)
    (scenarios : List (String × List GeneratedScenario)) : List String :=
  let recommendations : List String := []
  let userStoryCount := (prd.requirements.filter (fun r => r.type = ReqType.userStory)).length
  let recommendations := if userStoryCount = 0 then
    recommendations ++ ["Consider adding user stories to better capture user perspectives"]
    else recommendations
  let featuresWithoutScenarios := features.filter (fun f =>
    match scenarios.find? (fun p => p.1 == f.id) with
    | some p => p.2.length = 0
    | none => true)
  let recommendations := if featuresWithoutScenarios.length > 0 then
    recommendations ++ [jsString featuresWithoutScenarios.length
      ++ " feature(s) have no test scenarios. Consider adding acceptance criteria"]
    else recommendations
  let complexFeatures := (features.filter (fun f => f.complexity = Complexity.complex)).length
  let recommendations := if 2 * complexFeatures > features.length then
    recommendations
      ++ ["Many features are marked as complex. Consider breaking them down into smaller features"]
    else recommendations
  let highPriorityCount := (features.filter (fun f => f.priority = Priority.high)).length
  let recommendations := if highPriorityCount = 0 then
    recommendations
      ++ ["No high-priority features identified. Consider which features are most critical"]
    else recommendations
  let featuresWithDependencies := features.filter (fun f => f.dependencies.length > 0)
  let recommendations := if featuresWithDependencies.length > 0 then
    recommendations ++ ["Plan implementation order for "
      ++ jsString featuresWithDependencies.length ++ " feature(s) with dependencies"]
    else recommendations
  let totalScenarios := (createSummary features scenarios).totalScenarios
  let recommendations := if features.length ≠ 0 && totalScenarios < 2 * features.length then
    recommendations ++ ["Consider adding more test scenarios to ensure comprehensive coverage"]
    else recommendations
  let edgeCaseScenarios := (((scenarios.map (·.2)).flatten).filter (fun s =>
    s.tags.contains ("@edge-case"))).length
  let recommendations := if edgeCaseScenarios = 0 then
    recommendations ++ ["Consider adding edge case scenarios to handle boundary conditions"]
    else recommendations
  recommendations

/-- `RequirementsAnalyzer.analyzePRD`.  Everything after the feature
extraction is dead at runtime (the extractor always throws), but the body is
translated in full. -/
def analyzePRD (prd : ParsedPRD) (options : PartialScenarioOptions) :
    Except JsErr AnalysisResult := do
  let features ← FeatureExtractor.extractFeatures prd
  let maps := features.foldl
    (fun (ms : List (String × List GeneratedScenario) × List (String × GherkinFeature)) f =>
      let featureScenarios := ScenarioGenerator.generateScenarios f options
      (FeatureExtractor.mapSet ms.1 f.id featureScenarios,
       FeatureExtractor.mapSet ms.2 f.id (ScenarioGenerator.generateFeatureFile f featureScenarios)))
    ([], [])
  let summary := createSummary features maps.1
  let recommendations := generateRecommendations prd features maps.1
  let validation := validateRequirements prd features
  let result : AnalysisResult :=
    { prd := prd, features := features, scenarios := maps.1,
      gherkinFeatures := maps.2, summary := summary,
      recommendations := recommendations, validation := validation }
  pure result

/-- `RequirementsAnalyzer.analyzeContent`. -/
def analyzeContent (content : String) (options : PartialScenarioOptions) :
    Except JsErr AnalysisResult := do
  let prd ← PRDParser.parseContent content
  analyzePRD prd options

end RequirementsAnalyzer

-- ===== Lemmas: the parser never throws, and the shape of its output =====

namespace PRDParser

theorem metadataStep_ok (lines : List String) (md : PRDMetadata) (line : String) :
    ∃ md', metadataStep lines md line = Except.ok md' := by
  unfold metadataStep
  unfold reTestAt reTestSearch jsNonNull
  rcases h1 : reMatchAt titleRe line.data with _ | m1 <;>
    rcases h2 : reSearch versionRe line.data with _ | m2 <;>
      rcases h3 : reSearch authorRe line.data with _ | m3 <;>
        simp [h1, h2, h3, Except.bind] <;> exact ⟨_, rfl⟩

theorem foldlM_metadata_ok (lines rest : List String) (md : PRDMetadata) :
    ∃ md', List.foldlM (metadataStep lines) md rest = Except.ok md' := by
  induction rest generalizing md with
  | nil => exact ⟨md, rfl⟩
  | cons l ls ih =>
    obtain ⟨md1, h1⟩ := metadataStep_ok lines md l
    obtain ⟨md2, h2⟩ := ih md1
    exact ⟨md2, by simp [List.foldlM, h1, Bind.bind, Except.bind, h2]⟩

theorem extractMetadata_ok (lines : List String) :
    ∃ md, extractMetadata lines = Except.ok md :=
  foldlM_metadata_ok lines lines {}

theorem bareReqStep_ok (acc : List ParsedRequirement) (line : String) :
    ∃ out, bareReqStep acc line = Except.ok out ∧
      (out = acc ∨ ∃ nr, out = acc ++ [nr] ∧ nr.id = "" ∧ nr.dependencies = none) := by
  unfold bareReqStep reTestAt jsNonNull
  rcases h : reMatchAt bareReqRe line.data with _ | m
  · exact ⟨acc, by simp [h, Pure.pure, Except.pure], Or.inl rfl⟩
  · simp only [h, Option.isSome_some, if_true, Bind.bind, Except.bind, Pure.pure, Except.pure]
    exact ⟨_, rfl, Or.inr ⟨_, rfl, rfl, rfl⟩⟩

theorem bareReqStep_nomatch (acc : List ParsedRequirement) (line : String)
    (h : reTestAt bareReqRe line = false) : bareReqStep acc line = Except.ok acc := by
  unfold bareReqStep
  simp [h, Pure.pure, Except.pure]

theorem foldlM_bareReq_props (rest : List String) (acc : List ParsedRequirement)
    (hacc : ∀ r ∈ acc, r.id = "" ∧ r.dependencies = none) :
    ∃ rs, List.foldlM bareReqStep acc rest = Except.ok rs ∧
      ∀ r ∈ rs, r.id = "" ∧ r.dependencies = none := by
  induction rest generalizing acc with
  | nil => exact ⟨acc, rfl, hacc⟩
  | cons l ls ih =>
    obtain ⟨out, hout, hshape⟩ := bareReqStep_ok acc l
    have hout' : ∀ r ∈ out, r.id = "" ∧ r.dependencies = none := by
      rcases hshape with rfl | ⟨nr, rfl, hid, hdep⟩
      · exact hacc
      · intro r hr
        rcases List.mem_append.mp hr with h | h
        · exact hacc r h
        · rcases List.mem_singleton.mp h with rfl
          exact ⟨hid, hdep⟩
    obtain ⟨rs, hrs, hall⟩ := ih out hout'
    exact ⟨rs, by simp [List.foldlM, hout, Bind.bind, Except.bind, hrs], hall⟩

theorem extractRequirements_props (lines : List String) :
    ∃ rs, extractRequirements lines = Except.ok rs ∧
      ∀ r ∈ rs, r.id = "" ∧ r.dependencies = none := by
  simpa [extractRequirements] using foldlM_bareReq_props lines [] (by simp)

theorem foldlM_bareReq_nomatch (rest : List String) (acc : List ParsedRequirement)
    (h : ∀ l ∈ rest, reTestAt bareReqRe l = false) :
    List.foldlM bareReqStep acc rest = Except.ok acc := by
  induction rest generalizing acc with
  | nil => rfl
  | cons l ls ih =>
    have h1 := bareReqStep_nomatch acc l (h l (by simp))
    have h2 := ih acc (fun x hx => h x (by simp [hx]))
    simp [List.foldlM, h1, Bind.bind, Except.bind, h2]

theorem extractUserStories_fields (lines : List String) :
    ∀ r ∈ extractUserStories lines, r.id = "" ∧ r.dependencies = none := by
  intro r hr
  unfold extractUserStories at hr
  obtain ⟨m, _, rfl⟩ := List.mem_map.mp hr
  exact ⟨rfl, rfl⟩

end PRDParser


namespace PRDParser

/-- The invariant that the parser-side feature scanner only ever holds
records with an empty id and no dependencies. -/
def featInv (st : FeatState) : Prop :=
  (∀ r ∈ st.features, r.id = "" ∧ r.dependencies = none) ∧
  (∀ cf, st.currentFeature = some cf → cf.id = "" ∧ cf.dependencies = none)

theorem featStepHead_inv (st : FeatState) (line : String) (h : featInv st) :
    featInv (featStepHead st line) := by
  obtain ⟨h1, h2⟩ := h
  unfold featStepHead
  split_ifs with hc
  · refine ⟨?_, ?_⟩
    · intro r hr
      rcases hst : st.currentFeature with _ | cf <;> rcases hin : st.inFeature <;>
        simp only [hst, hin] at hr <;>
        first
        | exact h1 r hr
        | (rcases List.mem_append.mp hr with hm | hm
           · exact h1 r hm
           · rcases List.mem_singleton.mp hm with rfl
             exact h2 r hst)
    · intro cf hcf
      simp only [Option.some.injEq] at hcf
      subst hcf
      exact ⟨rfl, rfl⟩
  · exact ⟨h1, h2⟩

theorem featStepCrit_inv (st : FeatState) (line : String) (h : featInv st) :
    featInv (featStepCrit st line) := by
  obtain ⟨h1, h2⟩ := h
  unfold featStepCrit
  split_ifs with hc
  · rcases hst : st.currentFeature with _ | cf
    · exact ⟨h1, h2⟩
    · refine ⟨h1, ?_⟩
      intro cf' hcf'
      simp only [Option.some.injEq] at hcf'
      subst hcf'
      obtain ⟨ha, hb⟩ := h2 cf hst
      exact ⟨ha, hb⟩
  · exact ⟨h1, h2⟩

theorem featStepDesc_inv (st : FeatState) (line : String) (h : featInv st) :
    featInv (featStepDesc st line) := by
  obtain ⟨h1, h2⟩ := h
  unfold featStepDesc
  split_ifs with hc
  · rcases hst : st.currentFeature with _ | cf
    · exact ⟨h1, h2⟩
    · refine ⟨h1, ?_⟩
      intro cf' hcf'
      simp only [Option.some.injEq] at hcf'
      subst hcf'
      obtain ⟨ha, hb⟩ := h2 cf hst
      exact ⟨ha, hb⟩
  · exact ⟨h1, h2⟩

theorem featStep_inv (st : FeatState) (l : String) (h : featInv st) :
    featInv (featStep st l) :=
  featStepDesc_inv _ _ (featStepCrit_inv _ _ (featStepHead_inv _ _ h))

theorem foldl_featStep_inv (lines : List String) (st : FeatState) (h : featInv st) :
    featInv (lines.foldl featStep st) := by
  induction lines generalizing st with
  | nil => exact h
  | cons l ls ih => exact ih _ (featStep_inv st l h)

theorem extractFeaturesP_fields (lines : List String) :
    ∀ r ∈ extractFeaturesP lines, r.id = "" ∧ r.dependencies = none := by
  have base : featInv ({} : FeatState) := by
    constructor
    · intro r hr
      simp at hr
    · intro cf hcf
      simp at hcf
  have hfold := foldl_featStep_inv lines {} base
  obtain ⟨h1, h2⟩ := hfold
  intro r hr
  unfold extractFeaturesP at hr
  rcases hst : (lines.foldl featStep {}).currentFeature with _ | cf <;>
    rcases hin : (lines.foldl featStep {}).inFeature <;>
      simp only [hst, hin] at hr
  · exact h1 r hr
  · exact h1 r hr
  · exact h1 r hr
  · rcases List.mem_append.mp hr with hm | hm
    · exact h1 r hm
    · rcases List.mem_singleton.mp hm with rfl
      exact h2 r hst

end PRDParser

namespace PRDParser

theorem assignIds_length (i : Nat) (l : List ParsedRequirement) :
    (assignIds i l).length = l.length := by
  induction l generalizing i with
  | nil => rfl
  | cons r rs ih => simp [assignIds, ih]

theorem assignIds_map_id (l : List ParsedRequirement) (i : Nat)
    (h : ∀ r ∈ l, r.id = "") :
    (assignIds i l).map (·.id) = (List.range l.length).map (fun k => reqIdStr (i + k + 1)) := by
  induction l generalizing i with
  | nil => rfl
  | cons r rs ih =>
    have hr : r.id = "" := h r (by simp)
    have hrs : ∀ x ∈ rs, x.id = "" := fun x hx => h x (by simp [hx])
    simp only [assignIds, List.map_cons, List.length_cons, List.range_succ_eq_map,
      List.map_map, hr, if_pos, List.cons.injEq]
    refine ⟨by simp, ?_⟩
    rw [ih (i + 1) hrs]
    apply List.map_congr_left
    intro a _
    simp only [Function.comp_apply]
    congr 1
    omega

theorem assignIds_deps (l : List ParsedRequirement) (i : Nat)
    (h : ∀ r ∈ l, r.dependencies = none) :
    ∀ r ∈ assignIds i l, r.dependencies = none := by
  induction l generalizing i with
  | nil => intro r hr; simp [assignIds] at hr
  | cons x xs ih =>
    intro r hr
    simp only [assignIds, List.mem_cons] at hr
    rcases hr with rfl | hr
    · simpa using h x (by simp)
    · exact ih (i + 1) (fun y hy => h y (by simp [hy])) r hr

theorem parseContent_spec (content : String) :
    ∃ prd rs, extractRequirements (jsSplitLines content) = Except.ok rs ∧
      parseContent content = Except.ok prd ∧
      prd.requirements = assignIds 0
        (extractUserStories (jsSplitLines content)
          ++ extractFeaturesP (jsSplitLines content) ++ rs) := by
  obtain ⟨md, hmd⟩ := extractMetadata_ok (jsSplitLines content)
  obtain ⟨rs, hrs, _⟩ := extractRequirements_props (jsSplitLines content)
  have hp : ∃ prd, parseContent content = Except.ok prd ∧
      prd.requirements = assignIds 0
        (extractUserStories (jsSplitLines content)
          ++ extractFeaturesP (jsSplitLines content) ++ rs) := by
    simp only [parseContent, hmd, hrs, Bind.bind, Except.bind]
    exact ⟨_, rfl, rfl⟩
  obtain ⟨prd, h1, h2⟩ := hp
  exact ⟨prd, rs, hrs, h1, h2⟩

theorem parseContent_ok (content : String) :
    ∃ prd, parseContent content = Except.ok prd := by
  obtain ⟨prd, _, _, h, _⟩ := parseContent_spec content
  exact ⟨prd, h⟩

end PRDParser

namespace PRDParser

theorem featStep_init (l : String)
    (h : (jsStartsWith (jsTrim l) ("Feature:") || reTestAt featureHeadRe (jsTrim l)) = false) :
    featStep ({} : FeatState) l = ({} : FeatState) := by
  unfold featStep featStepHead featStepCrit featStepDesc
  simp [h]

theorem extractFeaturesP_nohead (lines : List String)
    (h : ∀ l ∈ lines,
      (jsStartsWith (jsTrim l) ("Feature:") || reTestAt featureHeadRe (jsTrim l)) = false) :
    extractFeaturesP lines = [] := by
  have hfold : lines.foldl featStep ({} : FeatState) = ({} : FeatState) := by
    induction lines with
    | nil => rfl
    | cons l ls ih =>
      have h1 := featStep_init l (h l (by simp))
      simp only [List.foldl_cons, h1]
      exact ih (fun x hx => h x (by simp [hx]))
  unfold extractFeaturesP
  rw [hfold]

theorem extractRequirements_nomatch (lines : List String)
    (h : ∀ l ∈ lines, reTestAt bareReqRe l = false) :
    extractRequirements lines = Except.ok [] :=
  foldlM_bareReq_nomatch lines [] h

theorem extractUserStories_nomatch (lines : List String)
    (h : jsExecAll userStoryRe (joinSep ("\n") lines).data = []) :
    extractUserStories lines = [] := by
  unfold extractUserStories
  simp only [h, List.map_nil]

end PRDParser

-- ===== Lemmas: injectivity of the sequential id numbering =====

theorem digitChar_inj_lt10 :
    ∀ a : Nat, a < 10 → ∀ b : Nat, b < 10 → Nat.digitChar a = Nat.digitChar b → a = b := by
  decide

theorem digitChar_ne_zero : ∀ d : Nat, d < 10 → d ≠ 0 → Nat.digitChar d ≠ '0' := by
  decide

theorem map_digitChar_inj (l1 : List Nat) :
    ∀ l2 : List Nat, (∀ x ∈ l1, x < 10) → (∀ x ∈ l2, x < 10) →
      l1.map Nat.digitChar = l2.map Nat.digitChar → l1 = l2 := by
  induction l1 with
  | nil =>
    intro l2 _ _ h
    cases l2 with
    | nil => rfl
    | cons b ys => simp at h
  | cons a xs ih =>
    intro l2 h1 h2 h
    cases l2 with
    | nil => simp at h
    | cons b ys =>
      simp only [List.map_cons, List.cons.injEq] at h
      obtain ⟨hab, hxy⟩ := h
      have hab' := digitChar_inj_lt10 a (h1 a (by simp)) b (h2 b (by simp)) hab
      subst hab'
      rw [ih ys (fun x hx => h1 x (by simp [hx])) (fun x hx => h2 x (by simp [hx])) hxy]

theorem decimalCharsCore_eq (fuel : Nat) :
    ∀ n : Nat, n ≤ fuel → decimalCharsCore fuel n = (Nat.digits 10 n).reverse.map Nat.digitChar := by
  induction fuel with
  | zero =>
    intro n h
    have h0 : n = 0 := Nat.le_zero.mp h
    subst h0
    simp [decimalCharsCore]
  | succ f ih =>
    intro n h
    unfold decimalCharsCore
    by_cases hn : n = 0
    · subst hn
      simp
    · rw [if_neg hn]
      have hdiv : n / 10 ≤ f := by
        have h1 : n / 10 < n := Nat.div_lt_self (Nat.pos_of_ne_zero hn) (by norm_num)
        omega
      rw [ih _ hdiv, Nat.digits_def' (b := 10) (by norm_num) (Nat.pos_of_ne_zero hn)]
      simp

theorem decimalChars_eq_digits (n : Nat) (hn : n ≠ 0) :
    decimalChars n = (Nat.digits 10 n).reverse.map Nat.digitChar := by
  unfold decimalChars
  rw [if_neg hn, decimalCharsCore_eq _ _ (Nat.le_succ n)]

theorem decimalChars_head_ne_zero (n : Nat) (hn : n ≠ 0) :
    ∀ c, (decimalChars n).head? = some c → c ≠ '0' := by
  intro c hc
  rw [decimalChars_eq_digits n hn, List.head?_map, List.head?_reverse] at hc
  have hne : Nat.digits 10 n ≠ [] := Nat.digits_ne_nil_iff_ne_zero.mpr hn
  rw [List.getLast?_eq_getLast _ hne] at hc
  simp only [Option.map_some', Option.some.injEq] at hc
  subst hc
  exact digitChar_ne_zero _
    (Nat.digits_lt_base (by norm_num) (List.getLast_mem hne))
    (Nat.getLast_digit_ne_zero 10 hn)

theorem decimalChars_inj (a b : Nat) (h : decimalChars a = decimalChars b) : a = b := by
  by_cases ha : a = 0 <;> by_cases hb : b = 0
  · rw [ha, hb]
  · exfalso
    subst ha
    have h0 : (decimalChars b).head? = some '0' := by rw [← h]; rfl
    exact decimalChars_head_ne_zero b hb '0' h0 rfl
  · exfalso
    subst hb
    have h0 : (decimalChars a).head? = some '0' := by rw [h]; rfl
    exact decimalChars_head_ne_zero a ha '0' h0 rfl
  · rw [decimalChars_eq_digits a ha, decimalChars_eq_digits b hb] at h
    have hrev := map_digitChar_inj _ _
      (fun x hx => Nat.digits_lt_base (by norm_num) (List.mem_reverse.mp hx))
      (fun x hx => Nat.digits_lt_base (by norm_num) (List.mem_reverse.mp hx)) h
    have hd : Nat.digits 10 a = Nat.digits 10 b := List.reverse_injective hrev
    calc a = Nat.ofDigits 10 (Nat.digits 10 a) := (Nat.ofDigits_digits 10 a).symm
      _ = Nat.ofDigits 10 (Nat.digits 10 b) := by rw [hd]
      _ = b := Nat.ofDigits_digits 10 b

theorem dropWhile_zeros_replicate (k : Nat) (l : List Char)
    (h : ∀ c, l.head? = some c → c ≠ '0') :
    List.dropWhile (fun c => c == '0') (List.replicate k '0' ++ l) = l := by
  induction k with
  | zero =>
    cases l with
    | nil => rfl
    | cons c t =>
      have hc := h c rfl
      simp [List.dropWhile_cons, hc]
  | succ n ih => simpa [List.replicate_succ, List.dropWhile_cons] using ih

theorem reqIdStr_inj (a b : Nat) (ha : a ≠ 0) (hb : b ≠ 0)
    (h : PRDParser.reqIdStr a = PRDParser.reqIdStr b) : a = b := by
  unfold PRDParser.reqIdStr at h
  have hd := congrArg String.data h
  simp only [String.data_append] at hd
  have hp : padStart3 (decimalChars a) = padStart3 (decimalChars b) :=
    List.append_cancel_left hd
  unfold padStart3 at hp
  have hz := congrArg (List.dropWhile (fun c => c == '0')) hp
  rw [dropWhile_zeros_replicate _ _ (decimalChars_head_ne_zero a ha),
    dropWhile_zeros_replicate _ _ (decimalChars_head_ne_zero b hb)] at hz
  exact decimalChars_inj a b hz

-- ===== Claim theorems =====

/-- Shared helper: `FeatureExtractor.extractFeatures` throws its
`ReferenceError` on every input. -/
theorem extractFeatures_err (prd : ParsedPRD) :
    FeatureExtractor.extractFeatures prd
      = Except.error (JsErr.referenceError ("groupedFeatures is not defined")) := rfl

/-- C1: the claim says `extractFeatures` returns, without raising, an ordered
feature list in which every requirement belongs to exactly one feature.  In
fact the function reads the undeclared identifier `groupedFeatures`
(suppressed by `@ts-ignore`) and therefore throws a `ReferenceError` on every
input, before any feature list is returned. -/
theorem c1_extractFeatures_always_throws (prd : ParsedPRD) :
    FeatureExtractor.extractFeatures prd
      = Except.error (JsErr.referenceError ("groupedFeatures is not defined")) :=
  extractFeatures_err prd

/-- C2: the claim says two `analyze` runs on identical input both complete
with deep-equal reports.  In fact `analyzeContent` never completes: the parse
stage succeeds and the feature-extraction stage then throws the
`groupedFeatures` `ReferenceError`, for every input text and every options
value. -/
theorem c2_analyze_never_completes (content : String) (options : PartialScenarioOptions) :
    RequirementsAnalyzer.analyzeContent content options
      = Except.error (JsErr.referenceError ("groupedFeatures is not defined")) := by
  obtain ⟨prd, hp⟩ := PRDParser.parseContent_ok content
  simp [RequirementsAnalyzer.analyzeContent, RequirementsAnalyzer.analyzePRD, hp,
    Bind.bind, Except.bind, extractFeatures_err]

/-- C6: `parseContent` returns a `ParsedPRD` for every input string and never
raises; a pass whose pattern matches nothing contributes zero requirements of
its kind, and the empty input yields a valid document with an empty
requirements list. -/
theorem c6_parse_never_raises :
    (∀ content : String, ∃ prd, PRDParser.parseContent content = Except.ok prd) ∧
    (∀ lines : List String, (∀ l ∈ lines, reTestAt bareReqRe l = false) →
      PRDParser.extractRequirements lines = Except.ok []) ∧
    (∀ lines : List String,
      (∀ l ∈ lines,
        (jsStartsWith (jsTrim l) ("Feature:") || reTestAt featureHeadRe (jsTrim l)) = false) →
      PRDParser.extractFeaturesP lines = []) ∧
    (∀ lines : List String, jsExecAll userStoryRe (joinSep ("\n") lines).data = [] →
      PRDParser.extractUserStories lines = []) ∧
    Except.map (fun p => p.requirements) (PRDParser.parseContent ("")) = Except.ok [] :=
  ⟨PRDParser.parseContent_ok, PRDParser.extractRequirements_nomatch,
    PRDParser.extractFeaturesP_nohead, PRDParser.extractUserStories_nomatch, by decide⟩

/-- Witness for C6 at concrete inputs: the line `"hello"` matches none of the
patterns, so each pass yields nothing. -/
theorem c6_witness :
    PRDParser.extractRequirements ["hello"] = Except.ok [] ∧
    PRDParser.extractFeaturesP ["hello"] = [] ∧
    PRDParser.extractUserStories ["hello"] = [] :=
  ⟨c6_parse_never_raises.2.1 ["hello"] (by decide),
    c6_parse_never_raises.2.2.1 ["hello"] (by decide),
    c6_parse_never_raises.2.2.2.1 ["hello"] (by decide)⟩

/-- C7: the requirements of every parsed document carry the zero-padded
sequential ids `REQ-001`, `REQ-002`, … assigned in encounter order after all
extraction passes, and these ids are pairwise distinct. -/
theorem c7_ids_sequential_and_distinct (content : String) (prd : ParsedPRD)
    (h : PRDParser.parseContent content = Except.ok prd) :
    prd.requirements.map (·.id)
      = (List.range prd.requirements.length).map (fun k => PRDParser.reqIdStr (k + 1)) ∧
    (prd.requirements.map (·.id)).Nodup := by
  obtain ⟨prd', rs, hrs, hp, hreq⟩ := PRDParser.parseContent_spec content
  rw [h] at hp
  injection hp with hp
  subst hp
  obtain ⟨rs', hrs', hprops⟩ := PRDParser.extractRequirements_props (jsSplitLines content)
  rw [hrs] at hrs'
  injection hrs' with hrs'
  subst hrs'
  set raws := PRDParser.extractUserStories (jsSplitLines content)
    ++ PRDParser.extractFeaturesP (jsSplitLines content) ++ rs with hraws
  have hids : ∀ r ∈ raws, r.id = "" := by
    intro r hr
    rcases List.mem_append.mp hr with hr2 | hr2
    · rcases List.mem_append.mp hr2 with hr3 | hr3
      · exact (PRDParser.extractUserStories_fields _ r hr3).1
      · exact (PRDParser.extractFeaturesP_fields _ r hr3).1
    · exact (hprops r hr2).1
  have hmap := PRDParser.assignIds_map_id raws 0 hids
  have hlen := PRDParser.assignIds_length 0 raws
  have hmap' : prd.requirements.map (·.id)
      = (List.range prd.requirements.length).map (fun k => PRDParser.reqIdStr (k + 1)) := by
    rw [hreq, hmap, hlen]
    apply List.map_congr_left
    intro a _
    congr 1
    omega
  refine ⟨hmap', ?_⟩
  rw [hmap']
  apply List.Nodup.map_on
  · intro x _ y _ hxy
    have := reqIdStr_inj (x + 1) (y + 1) (by omega) (by omega) hxy
    omega
  · exact List.nodup_range _

/-- The first requirement of the document parsed from `"- a: b\n- c: d"`
(the C7 witness input). -/
def c7Req1 : ParsedRequirement :=
  { id := "REQ-001", title := "a", description := some ("b"),
    type := ReqType.requirement, priority := Priority.medium,
    tags := some ["requirement"] }

/-- The second requirement of the C7 witness document. -/
def c7Req2 : ParsedRequirement :=
  { id := "REQ-002", title := "c", description := some ("d"),
    type := ReqType.requirement, priority := Priority.medium,
    tags := some ["requirement"] }

/-- The document parsed from the C7 witness input. -/
def c7Prd : ParsedPRD :=
  { title := "Untitled PRD", description := "", version := "1.0.0",
    author := none, stakeholders := none,
    requirements := [c7Req1, c7Req2],
    metadata :=
      { totalRequirements := 2, byType := [("requirement", 2)],
        byPriority := [("medium", 2)] } }

/-- Witness for C7: a two-requirement document gets the distinct ids
`REQ-001`, `REQ-002`. -/
theorem c7_witness :
    (c7Prd.requirements.map (·.id)).Nodup ∧
    c7Prd.requirements.map (·.id) = ["REQ-001", "REQ-002"] := by
  have h : PRDParser.parseContent ("- a: b\n- c: d") = Except.ok c7Prd := by decide
  obtain ⟨heq, hnd⟩ := c7_ids_sequential_and_distinct ("- a: b\n- c: d") c7Prd h
  exact ⟨hnd, by rw [heq]; decide⟩

-- ===== C3: cycle detection on the A → B → C → A feature set =====

/-- A user flow with a defined actor, so the missing-actor warning stays
silent for the C3 features. -/
def c3Flow : UserFlow :=
  { id := "A-flow", name := "log in", description := none,
    steps := ["open page", "submit"], actor := "user" }

/-- Feature `A` with dependency `B`. -/
def c3FeatA : ExtractedFeature :=
  { id := "A", name := "A", description := none, requirements := [],
    dependencies := ["B"], priority := Priority.medium,
    complexity := Complexity.simple, estimatedScenarios := 1, userFlows := [c3Flow] }

/-- Feature `B` with dependency `C`. -/
def c3FeatB : ExtractedFeature :=
  { c3FeatA with id := "B", name := "B", dependencies := ["C"] }

/-- Feature `C` with dependency `A`, closing the cycle. -/
def c3FeatC : ExtractedFeature :=
  { c3FeatA with id := "C", name := "C", dependencies := ["A"] }

/-- A document with no defects of its own. -/
def c3Prd : ParsedPRD :=
  { title := "t", description := "d", version := "1", author := none,
    stakeholders := none, requirements := [],
    metadata := { totalRequirements := 0, byType := [], byPriority := [] } }

/-- `C` without the back-edge, for the exactly-ten-points comparison. -/
def c3FeatCNoDep : ExtractedFeature :=
  { c3FeatA with id := "C", name := "C", dependencies := [] }

/-- C3: on the feature set `{A → [B], B → [C], C → [A]}` with no other
defects, validation emits exactly one warning, whose text carries the ordered
id path `A -> B -> C -> A`, and scores 90; removing the back-edge restores
100, so the circular-dependency check subtracts exactly 10. -/
theorem c3_cycle_warning_and_penalty :
    RequirementsAnalyzer.validateRequirements c3Prd [c3FeatA, c3FeatB, c3FeatC]
      = { isValid := true,
          warnings := ["Circular dependencies detected: A -> B -> C -> A"],
          errors := [], score := 90 } ∧
    (RequirementsAnalyzer.validateRequirements c3Prd [c3FeatA, c3FeatB, c3FeatCNoDep]).score
      = 100 := by
  decide

-- ===== C4: the score formula and the all-penalties document =====

namespace RequirementsAnalyzer

/-- The duplicate-id list of the first validation check. -/
def duplicateIdsOf (prd : ParsedPRD) : List String :=
  let ids := prd.requirements.map (·.id)
  ids.enum.filterMap (fun ii => if ids.indexOf ii.2 ≠ ii.1 then some ii.2 else none)

/-- The requirements flagged by the empty-title/description check. -/
def emptyRequirementsOf (prd : ParsedPRD) : List ParsedRequirement :=
  prd.requirements.filter (fun r =>
    r.title = "" || !jsTruthy r.description || (jsTrim r.title).length = 0)

/-- The requirements flagged by the orphaned-criteria check. -/
def orphanedCriteriaOf (prd : ParsedPRD) : List ParsedRequirement :=
  prd.requirements.filter (fun r => r.type = ReqType.acceptanceCriteria && r.title = "")

/-- The features flagged as oversized. -/
def largeFeaturesOf (features : List ExtractedFeature) : List ExtractedFeature :=
  features.filter (fun f => f.requirements.length > 10)

/-- The features flagged for undefined actors. -/
def featuresWithoutActorsOf (features : List ExtractedFeature) : List ExtractedFeature :=
  features.filter (fun f =>
    f.userFlows.length = 0 || f.userFlows.all (fun flow => flow.actor = ""))

/-- The total penalty subtracted from the starting score of 100: each fired
check contributes its fixed class penalty.  The six penalties sum to 65, so
the `Math.max(0, score)` floor in `validateRequirements` can never engage. -/
def penaltyTotal (prd : ParsedPRD) (features : List ExtractedFeature) : Int :=
  (if (duplicateIdsOf prd).length > 0 then 20 else 0)
  + (if (emptyRequirementsOf prd).length > 0 then 15 else 0)
  + (if (orphanedCriteriaOf prd).length > 0 then 5 else 0)
  + (if (largeFeaturesOf features).length > 0 then 10 else 0)
  + (if (featuresWithoutActorsOf features).length > 0 then 5 else 0)
  + (if (detectCircularDependencies features).length > 0 then 10 else 0)

set_option maxHeartbeats 2000000 in
theorem validate_score_eq (prd : ParsedPRD) (features : List ExtractedFeature) :
    (validateRequirements prd features).score = 100 - penaltyTotal prd features ∧
    0 ≤ (validateRequirements prd features).score := by
  unfold validateRequirements penaltyTotal duplicateIdsOf emptyRequirementsOf
    orphanedCriteriaOf largeFeaturesOf featuresWithoutActorsOf
  dsimp only
  split_ifs <;> constructor <;> omega

end RequirementsAnalyzer

-- C4: concrete all-penalty document

/-- A well-formed requirement, duplicated in `c4Prd` to fire the
duplicate-id check. -/
def c4Req1 : ParsedRequirement :=
  { id := "R1", title := "T", description := some ("D"),
    type := ReqType.requirement, priority := Priority.medium }

/-- An untitled acceptance-criteria record, firing both the empty-fields and
the orphaned-criteria checks. -/
def c4Req3 : ParsedRequirement :=
  { id := "R2", title := "", description := some ("D"),
    type := ReqType.acceptanceCriteria, priority := Priority.medium }

/-- A document firing the duplicate-id, empty-fields and orphaned-criteria
checks. -/
def c4Prd : ParsedPRD :=
  { title := "t", description := "d", version := "1", author := none,
    stakeholders := none, requirements := [c4Req1, c4Req1, c4Req3],
    metadata := { totalRequirements := 3, byType := [], byPriority := [] } }

/-- An eleven-requirement feature with no user flows: fires the oversized and
missing-actor checks. -/
def c4FBig : ExtractedFeature :=
  { id := "BIG", name := "Big", description := none,
    requirements := [c4Req1, c4Req1, c4Req1, c4Req1, c4Req1, c4Req1, c4Req1,
      c4Req1, c4Req1, c4Req1, c4Req1],
    dependencies := [], priority := Priority.medium,
    complexity := Complexity.simple, estimatedScenarios := 1, userFlows := [] }

/-- Half of a two-feature dependency cycle. -/
def c4FX : ExtractedFeature :=
  { c4FBig with id := "X", requirements := [], dependencies := ["Y"] }

/-- The other half of the cycle. -/
def c4FY : ExtractedFeature :=
  { c4FBig with id := "Y", requirements := [], dependencies := ["X"] }

/-- The feature list firing the oversized, missing-actor and
circular-dependency checks. -/
def c4Features : List ExtractedFeature := [c4FBig, c4FX, c4FY]

/-- Counterexample to C4: a document that fires all six penalty classes (two
errors and four warnings) scores 35, not 0 — the penalties only sum to 65. -/
theorem c4_counterexample :
    (RequirementsAnalyzer.validateRequirements c4Prd c4Features).score = 35 ∧
    (RequirementsAnalyzer.validateRequirements c4Prd c4Features).score ≠ 0 ∧
    (RequirementsAnalyzer.validateRequirements c4Prd c4Features).errors.length = 2 ∧
    (RequirementsAnalyzer.validateRequirements c4Prd c4Features).warnings.length = 4 := by
  decide

/-- C4 (amended): the score starts at 100 and each fired defect class
subtracts its fixed penalty (duplicate ids 20, empty title/description 15,
orphaned criteria 5, oversized feature 10, undefined actor 5, circular
dependency 10); the result is never negative, and a document firing every
class scores 35 (the floor at 0 is unreachable because the penalties total
65). -/
theorem c4_score_formula (prd : ParsedPRD) (features : List ExtractedFeature) :
    0 ≤ (RequirementsAnalyzer.validateRequirements prd features).score ∧
    (RequirementsAnalyzer.validateRequirements prd features).score
      = 100 - RequirementsAnalyzer.penaltyTotal prd features ∧
    ((RequirementsAnalyzer.duplicateIdsOf prd).length > 0 →
      (RequirementsAnalyzer.emptyRequirementsOf prd).length > 0 →
      (RequirementsAnalyzer.orphanedCriteriaOf prd).length > 0 →
      (RequirementsAnalyzer.largeFeaturesOf features).length > 0 →
      (RequirementsAnalyzer.featuresWithoutActorsOf features).length > 0 →
      (RequirementsAnalyzer.detectCircularDependencies features).length > 0 →
      (RequirementsAnalyzer.validateRequirements prd features).score = 35) := by
  obtain ⟨heq, hpos⟩ := RequirementsAnalyzer.validate_score_eq prd features
  refine ⟨hpos, heq, ?_⟩
  intro h1 h2 h3 h4 h5 h6
  rw [heq]
  unfold RequirementsAnalyzer.penaltyTotal
  rw [if_pos h1, if_pos h2, if_pos h3, if_pos h4, if_pos h5, if_pos h6]
  norm_num

/-- Witness for C4 at the all-penalty document: every hypothesis of the
amended claim fires and the score is 35. -/
theorem c4_witness :
    0 ≤ (RequirementsAnalyzer.validateRequirements c4Prd c4Features).score ∧
    (RequirementsAnalyzer.validateRequirements c4Prd c4Features).score
      = 100 - RequirementsAnalyzer.penaltyTotal c4Prd c4Features ∧
    (RequirementsAnalyzer.validateRequirements c4Prd c4Features).score = 35 :=
  ⟨(c4_score_formula c4Prd c4Features).1, (c4_score_formula c4Prd c4Features).2.1,
    (c4_score_formula c4Prd c4Features).2.2 (by decide) (by decide) (by decide)
      (by decide) (by decide) (by decide)⟩

-- ===== C5: per-requirement criteria chunking =====

namespace ScenarioGenerator

theorem groupRelatedCriteria_length :
    ∀ (n : Nat) (l : List String), l.length ≤ n →
      (groupRelatedCriteria l).length = (l.length + 4) / 5 := by
  intro n
  induction n with
  | zero =>
    intro l h
    have h0 : l = [] := List.eq_nil_of_length_eq_zero (Nat.le_zero.mp h)
    subst h0
    rfl
  | succ m ih =>
    intro l h
    rcases l with _ | ⟨a, _ | ⟨b, _ | ⟨c, _ | ⟨d, _ | ⟨e, t⟩⟩⟩⟩⟩
    · rfl
    · simp [groupRelatedCriteria]
    · simp [groupRelatedCriteria]
    · simp [groupRelatedCriteria]
    · simp [groupRelatedCriteria]
    · have ht : t.length ≤ m := by
        simp only [List.length_cons] at h
        omega
      have hgrc : groupRelatedCriteria (a :: b :: c :: d :: e :: t)
          = [a, b, c, d, e] :: groupRelatedCriteria t := rfl
      rw [hgrc]
      simp only [List.length_cons, ih t ht]
      have h5 : t.length + 1 + 1 + 1 + 1 + 1 + 4 = t.length + 4 + 5 := by omega
      rw [h5, Nat.add_div_right _ (by norm_num)]

end ScenarioGenerator

/-- C5 (amended): the acceptance criteria of each requirement are chunked
separately into groups of at most 5, one scenario per group, so the
criteria-derived scenario count for a feature equals the sum over its
requirements of `ceil(nᵢ / 5)` — not `ceil(N / 5)` of the feature-wide total
`N`. -/
theorem c5_chunking_per_requirement (feature : ExtractedFeature)
    (opts : ScenarioGenerationOptions) :
    (ScenarioGenerator.generateScenariosFromCriteria feature opts).length
      = (feature.requirements.map
          (fun r => ((r.acceptanceCriteria.getD []).length + 4) / 5)).sum := by
  unfold ScenarioGenerator.generateScenariosFromCriteria
  induction feature.requirements with
  | nil => rfl
  | cons r rs ih =>
    simp only [List.flatMap_cons, List.map_cons, List.sum_cons, List.length_append, ih]
    congr 1
    rcases hc : r.acceptanceCriteria with _ | cs
    · rfl
    · simp only [Option.getD_some]
      by_cases hlen : cs.length > 0
      · simp only [if_pos hlen, List.length_map]
        exact ScenarioGenerator.groupRelatedCriteria_length cs.length cs (Nat.le_refl _)
      · have h0 : cs = [] := List.eq_nil_of_length_eq_zero (by omega)
        subst h0
        rfl

/-- The first requirement of the C5 counterexample feature. -/
def c5Req1 : ParsedRequirement :=
  { id := "Q1", title := "Alpha", description := some ("da"),
    type := ReqType.requirement, priority := Priority.medium,
    acceptanceCriteria := some ["criterion one"] }

/-- The second requirement of the C5 counterexample feature. -/
def c5Req2 : ParsedRequirement :=
  { id := "Q2", title := "Beta", description := some ("db"),
    type := ReqType.requirement, priority := Priority.medium,
    acceptanceCriteria := some ["criterion two"] }

/-- A feature with two requirements carrying one acceptance criterion each
(N = 2 in total). -/
def c5Feature : ExtractedFeature :=
  { id := "Q", name := "Pay", description := none,
    requirements := [c5Req1, c5Req2], dependencies := [],
    priority := Priority.medium, complexity := Complexity.simple,
    estimatedScenarios := 1, userFlows := [] }

/-- Counterexample to C5: with N = 2 criteria in total the claim predicts
`ceil(2/5) = 1` acceptance-criteria scenario, but `generateScenarios`
produces 2 (one per requirement). -/
theorem c5_counterexample :
    ((ScenarioGenerator.generateScenarios c5Feature {}).filter
      (fun s => s.source = SSource.acceptanceCriteria)).length = 2 ∧
    ((c5Feature.requirements.map
        (fun r => (r.acceptanceCriteria.getD []).length)).sum + 4) / 5 = 1 := by
  decide

-- ===== C8: options are never validated =====

namespace ScenarioGenerator

theorem generateScenariosFromFlow_detail (flow : UserFlow) (feature : ExtractedFeature)
    (o1 o2 : ScenarioGenerationOptions)
    (hD : (o1.detailLevel = "detailed") = (o2.detailLevel = "detailed"))
    (hM : o1.maxScenariosPerFlow = o2.maxScenariosPerFlow) :
    generateScenariosFromFlow flow feature o1 = generateScenariosFromFlow flow feature o2 := by
  unfold generateScenariosFromFlow
  by_cases hc : o2.detailLevel = "detailed"
  · have h1 : o1.detailLevel = "detailed" := by rw [hD]; exact hc
    simp [h1, hc, hM]
  · have h1 : ¬(o1.detailLevel = "detailed") := by rw [hD]; exact hc
    simp [h1, hc, hM]

theorem generateScenariosMerged_detail_irrelevant (feature : ExtractedFeature)
    (o1 o2 : ScenarioGenerationOptions)
    (hE : o1.includeEdgeCases = o2.includeEdgeCases)
    (hR : o1.includeErrorCases = o2.includeErrorCases)
    (hI : o1.includeIntegrationScenarios = o2.includeIntegrationScenarios)
    (hM : o1.maxScenariosPerFlow = o2.maxScenariosPerFlow)
    (hD : (o1.detailLevel = "detailed") = (o2.detailLevel = "detailed")) :
    generateScenariosMerged feature o1 = generateScenariosMerged feature o2 := by
  unfold generateScenariosMerged
  have hflow : (fun flow => generateScenariosFromFlow flow feature o1)
      = (fun flow => generateScenariosFromFlow flow feature o2) := by
    funext flow
    exact generateScenariosFromFlow_detail flow feature o1 o2 hD hM
  rw [hflow, hE, hR, hI]
  rfl

/-- C8 (amended): an options value whose detail level is outside
`{basic, standard, detailed}` is not rejected — no validation runs anywhere in
the pipeline — and scenario generation completes normally, behaving exactly
as with `detailLevel = "standard"` (the level is only ever compared against
`"detailed"`). -/
theorem c8_invalid_detail_level_not_rejected (feature : ExtractedFeature)
    (popts : PartialScenarioOptions) (lvl : String)
    (h1 : popts.detailLevel = some lvl) (h2 : lvl ≠ "detailed") :
    generateScenarios feature popts
      = generateScenarios feature { popts with detailLevel := some "standard" } := by
  unfold generateScenarios
  apply generateScenariosMerged_detail_irrelevant <;>
    simp [mergeOptions, h1, h2]

/-- A feature with no flows, criteria or dependencies, for the C8
counterexample. -/
def c8Feature : ExtractedFeature :=
  { id := "G", name := "Gamma", description := none, requirements := [],
    dependencies := [], priority := Priority.medium,
    complexity := Complexity.simple, estimatedScenarios := 1, userFlows := [] }

/-- Counterexample to C8: with the invalid detail level `"bogus"` the
generator neither fails fast nor errors — it produces the same three
scenarios as with valid options, and the whole pipeline's only failure is the
`groupedFeatures` `ReferenceError` of the extract stage, which strikes after
the parse stage has already run and has nothing to do with the options. -/
theorem c8_counterexample :
    generateScenarios c8Feature { detailLevel := some ("bogus") }
      = generateScenarios c8Feature {} ∧
    (generateScenarios c8Feature { detailLevel := some ("bogus") }).length = 3 ∧
    RequirementsAnalyzer.analyzeContent ("x") { detailLevel := some ("bogus") }
      = Except.error (JsErr.referenceError ("groupedFeatures is not defined")) := by
  decide

/-- Witness for C8 at a concrete feature and options value. -/
theorem c8_witness :
    generateScenarios c8Feature { detailLevel := some ("weird") }
      = generateScenarios c8Feature { detailLevel := some ("standard") } :=
  c8_invalid_detail_level_not_rejected c8Feature { detailLevel := some ("weird") }
    ("weird") rfl (by decide)

end ScenarioGenerator

-- ===== C9: the complexity rule and the hard-coded singleton complexity =====

namespace FeatureExtractor

/-- The `hasDependencies` test of `estimateComplexity`. -/
def hasDepsAny (reqs : List ParsedRequirement) : Bool :=
  reqs.any (fun r =>
    match r.dependencies with
    | some d => d.length > 0
    | none => false)

/-- The distinct truthy actors of `estimateComplexity`. -/
def actorsOf (reqs : List ParsedRequirement) : List String :=
  dedupKeep (reqs.filterMap (fun r => if jsTruthy r.actor then r.actor else none))

end FeatureExtractor

/-- C9 (amended): for features built from requirement groups,
`estimateComplexity` follows the claimed rule — `complex` iff the group has
more than 5 members, or some member has dependencies, or the members span
more than one distinct actor; otherwise `medium` iff more than 2 members;
otherwise `simple`.  Leftover single-requirement features, however, are
hard-coded to complexity `medium` by `createFeatureFromRequirement`,
regardless of the rule (which would give `simple` for a dependency-free,
single-actor singleton). -/
theorem c9_complexity_rule :
    (∀ reqs : List ParsedRequirement,
      (FeatureExtractor.estimateComplexity reqs = Complexity.complex ↔
        (decide (5 < reqs.length) || FeatureExtractor.hasDepsAny reqs
          || decide (1 < (FeatureExtractor.actorsOf reqs).length)) = true) ∧
      (FeatureExtractor.estimateComplexity reqs = Complexity.medium ↔
        (¬((decide (5 < reqs.length) || FeatureExtractor.hasDepsAny reqs
            || decide (1 < (FeatureExtractor.actorsOf reqs).length)) = true)
          ∧ 2 < reqs.length)) ∧
      (FeatureExtractor.estimateComplexity reqs = Complexity.simple ↔
        (¬((decide (5 < reqs.length) || FeatureExtractor.hasDepsAny reqs
            || decide (1 < (FeatureExtractor.actorsOf reqs).length)) = true)
          ∧ ¬(2 < reqs.length)))) ∧
    (∀ req : ParsedRequirement,
      (FeatureExtractor.createFeatureFromRequirement req).complexity = Complexity.medium) := by
  constructor
  · intro reqs
    unfold FeatureExtractor.estimateComplexity
    dsimp only
    have hdep : (reqs.any (fun r =>
        match r.dependencies with
        | some d => d.length > 0
        | none => false)) = FeatureExtractor.hasDepsAny reqs := rfl
    have hact : FeatureExtractor.dedupKeep (reqs.filterMap
        (fun r => if jsTruthy r.actor then r.actor else none))
        = FeatureExtractor.actorsOf reqs := rfl
    rw [hdep, hact]
    split_ifs with hc h4 <;> simp_all
  · intro req
    rfl

/-- A dependency-free, single-actor requirement, for the C9 counterexample. -/
def c9Req : ParsedRequirement :=
  { id := "S1", title := "Solo", description := some ("alone"),
    type := ReqType.requirement, priority := Priority.low,
    actor := some ("user") }

/-- Counterexample to C9: a leftover single-requirement feature built from a
requirement with no dependencies and a single actor gets complexity `medium`
(hard-coded), although the claimed rule — and `estimateComplexity` on the
same singleton group — gives `simple`. -/
theorem c9_counterexample :
    (FeatureExtractor.createFeatureFromRequirement c9Req).complexity = Complexity.medium ∧
    FeatureExtractor.estimateComplexity [c9Req] = Complexity.simple ∧
    Complexity.medium ≠ Complexity.simple := by
  decide

-- ===== C10: no dependencies ever, hence no cycles and no integration =====

namespace RequirementsAnalyzer

theorem depsLookup_nil (m : List (String × List String))
    (hm : ∀ p ∈ m, p.2 = []) (k : String) : depsLookup m k = [] := by
  unfold depsLookup
  rcases hf : List.find? (fun p => p.1 == k) m with _ | p
  · rw [hf]
    rfl
  · have hmem := List.mem_of_find?_eq_some hf
    rw [hf]
    simp [hm p hmem]

theorem dfsVisit_no_deps (depMap : List (String × List String))
    (hm : ∀ p ∈ depMap, p.2 = []) (fuel : Nat) (fid : String) (st : DfsState)
    (hrec : st.recStack = []) :
    ∃ v, dfsVisit depMap (fuel + 1) fid [] st
      = (false, { visited := v, recStack := [], circular := st.circular }) := by
  obtain ⟨v, r, c⟩ := st
  simp only at hrec
  subst hrec
  by_cases hv : fid ∈ v
  · exact ⟨v, by simp [dfsVisit, hv]⟩
  · exact ⟨v ++ [fid], by simp [dfsVisit, hv, depsLookup_nil depMap hm, runDeps]⟩

theorem detectCircular_no_deps (features : List ExtractedFeature)
    (h : ∀ f ∈ features, f.dependencies = []) :
    detectCircularDependencies features = [] := by
  unfold detectCircularDependencies
  have hmap : ∀ (fs : List ExtractedFeature) (m0 : List (String × List String)),
      (∀ p ∈ m0, p.2 = []) → (∀ f ∈ fs, f.dependencies = []) →
      ∀ p ∈ fs.foldl (fun m f => FeatureExtractor.mapSet m f.id f.dependencies) m0, p.2 = [] := by
    intro fs
    induction fs with
    | nil => exact fun m0 h0 _ p hp => h0 p hp
    | cons f fs ih =>
      intro m0 h0 hf p hp
      refine ih (FeatureExtractor.mapSet m0 f.id f.dependencies) ?_
        (fun x hx => hf x (by simp [hx])) p hp
      intro q hq
      unfold FeatureExtractor.mapSet at hq
      have hdf : f.dependencies = [] := hf f (by simp)
      split_ifs at hq
      · obtain ⟨q0, hq0, hq0e⟩ := List.mem_map.mp hq
        by_cases hk : (q0.1 == f.id) = true
        · rw [if_pos hk] at hq0e
          rw [← hq0e, hdf]
        · rw [if_neg hk] at hq0e
          exact hq0e ▸ h0 q0 hq0
      · rcases List.mem_append.mp hq with hq1 | hq1
        · exact h0 q hq1
        · rcases List.mem_singleton.mp hq1 with rfl
          exact hdf
  have hfold : ∀ (fs : List ExtractedFeature)
      (depMap : List (String × List String)) (fuel : Nat),
      (∀ p ∈ depMap, p.2 = []) →
      ∀ st : DfsState, st.recStack = [] → st.circular = [] →
      ((fs.foldl (fun (st : DfsState) f =>
        if st.visited.contains f.id then st
        else (dfsVisit depMap (fuel + 1) f.id [] st).2) st).recStack = [] ∧
       (fs.foldl (fun (st : DfsState) f =>
        if st.visited.contains f.id then st
        else (dfsVisit depMap (fuel + 1) f.id [] st).2) st).circular = []) := by
    intro fs depMap fuel hdm
    induction fs with
    | nil => exact fun st h1 h2 => ⟨h1, h2⟩
    | cons f fs ih =>
      intro st h1 h2
      simp only [List.foldl_cons]
      by_cases hv : st.visited.contains f.id
      · rw [if_pos hv]
        exact ih st h1 h2
      · rw [if_neg hv]
        obtain ⟨v, hvis⟩ := dfsVisit_no_deps depMap hdm fuel f.id st h1
        rw [hvis]
        exact ih _ rfl (by simp [h2])
  have := hfold features
    (features.foldl (fun m f => FeatureExtractor.mapSet m f.id f.dependencies) [])
    (features.length + (features.map (fun f => f.dependencies.length)).sum)
    (hmap features [] (by simp) h)
    { visited := [], recStack := [], circular := [] } rfl rfl
  exact this.2

end RequirementsAnalyzer

namespace ScenarioGenerator

theorem mem_insertCmp {x s : GeneratedScenario} :
    ∀ {l : List GeneratedScenario}, s ∈ insertCmp x l → s = x ∨ s ∈ l := by
  intro l
  induction l with
  | nil =>
    intro h
    simp [insertCmp] at h
    exact Or.inl h
  | cons y t ih =>
    intro h
    unfold insertCmp at h
    split_ifs at h
    · rcases List.mem_cons.mp h with rfl | h2
      · exact Or.inr (by simp)
      · rcases ih h2 with h3 | h3
        · exact Or.inl h3
        · exact Or.inr (by simp [h3])
    · rcases List.mem_cons.mp h with rfl | h2
      · exact Or.inl rfl
      · exact Or.inr h2

theorem mem_sortScenarios {s : GeneratedScenario} {l : List GeneratedScenario}
    (h : s ∈ sortScenariosByPriority l) : s ∈ l := by
  unfold sortScenariosByPriority at h
  suffices haux : ∀ (l2 : List GeneratedScenario) (acc : List GeneratedScenario),
      s ∈ l2.foldl (fun a x => insertCmp x a) acc → s ∈ acc ∨ s ∈ l2 by
    rcases haux l [] h with h2 | h2
    · simp at h2
    · exact h2
  intro l2
  induction l2 with
  | nil => exact fun acc h2 => Or.inl h2
  | cons y t ih =>
    intro acc h2
    rcases ih (insertCmp y acc) h2 with h3 | h3
    · rcases mem_insertCmp h3 with rfl | h4
      · exact Or.inr (by simp)
      · exact Or.inl h4
    · exact Or.inr (by simp [h3])

theorem mem_deduplicate {s : GeneratedScenario} {l : List GeneratedScenario}
    (h : s ∈ deduplicateScenarios l) : s ∈ l := by
  unfold deduplicateScenarios at h
  suffices haux : ∀ (l2 : List GeneratedScenario) (st : List String × List GeneratedScenario),
      s ∈ (l2.foldl (fun st x =>
        if st.1.contains (scenarioKey x) then st
        else (st.1 ++ [scenarioKey x], st.2 ++ [x])) st).2 → s ∈ st.2 ∨ s ∈ l2 by
    rcases haux l ([], []) h with h2 | h2
    · simp at h2
    · exact h2
  intro l2
  induction l2 with
  | nil => exact fun st h2 => Or.inl h2
  | cons y t ih =>
    intro st h2
    simp only [List.foldl_cons] at h2
    by_cases hk : st.1.contains (scenarioKey y)
    · rw [if_pos hk] at h2
      rcases ih st h2 with h3 | h3
      · exact Or.inl h3
      · exact Or.inr (by simp [h3])
    · rw [if_neg hk] at h2
      rcases ih (st.1 ++ [scenarioKey y], st.2 ++ [y]) h2 with h3 | h3
      · rcases List.mem_append.mp h3 with h4 | h4
        · exact Or.inl h4
        · rcases List.mem_singleton.mp h4 with rfl
          exact Or.inr (by simp)
      · exact Or.inr (by simp [h3])

theorem mem_flow_types {s : GeneratedScenario} {flow : UserFlow}
    {feature : ExtractedFeature} {opts : ScenarioGenerationOptions}
    (h : s ∈ generateScenariosFromFlow flow feature opts) :
    s.type = SType.happyPath ∨ s.type = SType.edgeCase := by
  unfold generateScenariosFromFlow at h
  have h2 := List.mem_of_mem_take h
  split_ifs at h2 <;> simp only [List.mem_cons, List.mem_singleton] at h2
  · rcases h2 with rfl | rfl | h3
    · exact Or.inl rfl
    · exact Or.inr rfl
    · simp at h3
  · rcases h2 with rfl | h3
    · exact Or.inl rfl
    · simp at h3

theorem mem_criteria_types {s : GeneratedScenario} {feature : ExtractedFeature}
    {opts : ScenarioGenerationOptions}
    (h : s ∈ generateScenariosFromCriteria feature opts) :
    s.type = SType.happyPath := by
  unfold generateScenariosFromCriteria at h
  obtain ⟨r, _, hr⟩ := List.mem_flatMap.mp h
  rcases hacc : r.acceptanceCriteria with _ | cs
  · rw [hacc] at hr
    simp at hr
  · rw [hacc] at hr
    dsimp only at hr
    split_ifs at hr
    · obtain ⟨g, _, hge⟩ := List.mem_map.mp hr
      rw [← hge]
    · simp at hr

theorem mem_edge_types {s : GeneratedScenario} {feature : ExtractedFeature}
    {opts : ScenarioGenerationOptions}
    (h : s ∈ generateEdgeCases feature opts) : s.type = SType.edgeCase := by
  unfold generateEdgeCases at h
  rcases List.mem_append.mp h with h2 | h2
  · split_ifs at h2
    · rcases List.mem_singleton.mp h2 with rfl
      rfl
    · simp at h2
  · rcases List.mem_singleton.mp h2 with rfl
    rfl

theorem mem_error_types {s : GeneratedScenario} {feature : ExtractedFeature}
    {opts : ScenarioGenerationOptions}
    (h : s ∈ generateErrorCases feature opts) : s.type = SType.errorCase := by
  unfold generateErrorCases at h
  rcases List.mem_append.mp h with h2 | h2
  · rcases List.mem_cons.mp h2 with rfl | h3
    · rfl
    · rcases List.mem_singleton.mp h3 with rfl
      rfl
  · split_ifs at h2
    · rcases List.mem_singleton.mp h2 with rfl
      rfl
    · simp at h2

end ScenarioGenerator

/-- C10: no extraction pass of the parser ever sets `dependencies`, so every
parsed requirement has the field unset; a feature set with empty dependency
lists can never fire the circular-dependency warning; and a feature with no
dependencies never yields an integration scenario. -/
theorem c10_no_dependencies_anywhere :
    (∀ (content : String) (prd : ParsedPRD),
      PRDParser.parseContent content = Except.ok prd →
      (prd.requirements.all (fun r => r.dependencies == none)) = true) ∧
    (∀ features : List ExtractedFeature, (∀ f ∈ features, f.dependencies = []) →
      RequirementsAnalyzer.detectCircularDependencies features = []) ∧
    (∀ (feature : ExtractedFeature) (opts : PartialScenarioOptions),
      feature.dependencies = [] →
      ((ScenarioGenerator.generateScenarios feature opts).all
        (fun s => s.type != SType.integration)) = true) := by
  refine ⟨?_, ?_, ?_⟩
  · intro content prd h
    rw [List.all_eq_true]
    intro r hr
    obtain ⟨prd', rs, hrs, hp, hreq⟩ := PRDParser.parseContent_spec content
    rw [h] at hp
    injection hp with hp
    subst hp
    obtain ⟨rs', hrs', hprops⟩ := PRDParser.extractRequirements_props (jsSplitLines content)
    rw [hrs] at hrs'
    injection hrs' with hrs'
    subst hrs'
    have hdeps : ∀ x ∈ (PRDParser.extractUserStories (jsSplitLines content)
        ++ PRDParser.extractFeaturesP (jsSplitLines content) ++ rs),
        x.dependencies = none := by
      intro x hx
      rcases List.mem_append.mp hx with hx2 | hx2
      · rcases List.mem_append.mp hx2 with hx3 | hx3
        · exact (PRDParser.extractUserStories_fields _ x hx3).2
        · exact (PRDParser.extractFeaturesP_fields _ x hx3).2
      · exact (hprops x hx2).2
    have hnone := PRDParser.assignIds_deps _ 0 hdeps r (hreq ▸ hr)
    simp [hnone]
  · exact fun features h => RequirementsAnalyzer.detectCircular_no_deps features h
  · intro feature opts hdeps
    rw [List.all_eq_true]
    intro s hs
    unfold ScenarioGenerator.generateScenarios ScenarioGenerator.generateScenariosMerged at hs
    dsimp only at hs
    have hs2 := ScenarioGenerator.mem_deduplicate (ScenarioGenerator.mem_sortScenarios hs)
    have htype : s.type = SType.happyPath ∨ s.type = SType.edgeCase
        ∨ s.type = SType.errorCase := by
      rcases List.mem_append.mp hs2 with h4 | hinteg
      · rcases List.mem_append.mp h4 with h5 | herr
        · rcases List.mem_append.mp h5 with h6 | hedge
          · rcases List.mem_append.mp h6 with hflow | hcrit
            · obtain ⟨flow, _, hf⟩ := List.mem_flatMap.mp hflow
              rcases ScenarioGenerator.mem_flow_types hf with h8 | h8
              · exact Or.inl h8
              · exact Or.inr (Or.inl h8)
            · exact Or.inl (ScenarioGenerator.mem_criteria_types hcrit)
          · split_ifs at hedge
            · exact Or.inr (Or.inl (ScenarioGenerator.mem_edge_types hedge))
            · simp at hedge
        · split_ifs at herr
          · exact Or.inr (Or.inr (ScenarioGenerator.mem_error_types herr))
          · simp at herr
      · rw [hdeps] at hinteg
        split_ifs at hinteg with hcond
        · simp at hcond
        · simp at hinteg
    rcases htype with h | h | h <;> simp [h]

/-- The parse of `"- x: y"`: one bare-requirement record with its
`dependencies` field unset. -/
def c10Prd : ParsedPRD :=
  { title := "Untitled PRD"
    description := ""
    version := "1.0.0"
    author := none
    stakeholders := none
    requirements := [{ id := "REQ-001"
                       title := "x"
                       description := some "y"
                       type := ReqType.requirement
                       priority := Priority.medium
                       actor := none
                       goal := none
                       value := none
                       acceptanceCriteria := none
                       dependencies := none
                       tags := some ["requirement"] }]
    metadata := { totalRequirements := 1
                  byType := [("requirement", 1)]
                  byPriority := [("medium", 1)] } }

/-- A dependency-free extracted feature for the C10 witness. -/
def c10Feat : ExtractedFeature :=
  { id := "FEAT-001"
    name := "X"
    description := none
    requirements := []
    dependencies := []
    priority := Priority.medium
    complexity := Complexity.simple
    estimatedScenarios := 1
    userFlows := [] }

theorem c10_witness :
    ((c10Prd.requirements.all (fun r => r.dependencies == none)) = true) ∧
    (RequirementsAnalyzer.detectCircularDependencies [c10Feat] = []) ∧
    (((ScenarioGenerator.generateScenarios c10Feat {}).all
        (fun s => s.type != SType.integration)) = true) :=
  ⟨c10_no_dependencies_anywhere.1 "- x: y" c10Prd (by decide),
   c10_no_dependencies_anywhere.2.1 [c10Feat] (by decide),
   c10_no_dependencies_anywhere.2.2 c10Feat {} rfl⟩
